import Mathlib

/-!
# vuln-agent front end (`frontend/src/App.js`): login and dashboard handlers

A shallow embedding of the event handlers of the React client:
`Login.handleLogin`, `Dashboard.loadDashboardData` and `Dashboard.sendMessage`.

* JavaScript values that travel over HTTP are JSON values (`JSValue`), extended with
  `undefined` for what a missing property reads as.
* An `await axios.…` is a point where the environment answers: the answer is an explicit
  argument (`HttpOutcome`) of the handler, and every request the handler issues is appended
  to a log in `World`.
* React state is a record; a handler maps the state of the render it was created in to the
  state after all of its `setX` calls have been applied, in program order.
-/

namespace VulnAgent

/-! ## JavaScript values -/

/-- A JavaScript Number, given by the two things the handlers can observe of it (floating
point itself is outside the embedding): `nonzero` is `ToBoolean` of the number (false for
`0`, `-0` and `NaN`), `text` is its `Number::toString`. The number `1e21` is
`⟨true, "1e+21"⟩`, the number `0` is `⟨false, "0"⟩`. -/
structure JSNumber where
  nonzero : Bool
  text : String

/-- JSON values as delivered by axios in `response.data`, plus `undefined`. -/
inductive JSValue where
  | undefined : JSValue
  | null : JSValue
  | bool : Bool → JSValue
  | num : JSNumber → JSValue
  | str : String → JSValue
  | arr : List JSValue → JSValue
  | obj : List (String × JSValue) → JSValue

namespace JSValue

/-- ECMAScript `ToBoolean`: `undefined`, `null`, `false`, `0` and `""` are falsy,
everything else (arrays and objects included) is truthy. -/
def truthy : JSValue → Bool
  | undefined => false
  | null => false
  | bool b => b
  | num n => n.nonzero
  | str s => s != ""
  | arr _ => true
  | obj _ => true

/-- Values on which a property access throws a `TypeError`. -/
def isNullish : JSValue → Bool
  | undefined => true
  | null => true
  | _ => false

/-- Own-property lookup in an object literal (the first binding of the key). -/
def lookup (k : String) : List (String × JSValue) → JSValue
  | [] => undefined
  | (k1, v) :: rest => if k1 = k then v else lookup k rest

/-- Property read `v.k` for the property names used by the handlers (`success`, `token`,
`user_id`, `role`, `response`, `system_info`, `data_leakage_warning`, `portfolios`,
`detail`), none of which is a built-in property of a string, number, boolean or array:
`none` stands for the `TypeError` thrown on `undefined` and `null`. -/
def getProp (v : JSValue) (k : String) : Option JSValue :=
  match v with
  | undefined => none
  | null => none
  | obj fields => some (lookup k fields)
  | _ => some undefined

/-- Optional chaining `v?.k`. -/
def optProp (v : JSValue) (k : String) : JSValue :=
  match getProp v k with
  | some x => x
  | none => undefined

/-- The JavaScript expression `a || b`. -/
def or (a b : JSValue) : JSValue :=
  if a.truthy then a else b

/-- An object literal has an own property `k`. -/
def hasKey (k : String) : List (String × JSValue) → Bool
  | [] => false
  | (k1, _) :: rest => if k1 = k then true else hasKey k rest

mutual
/-- ECMAScript `ToString`, as applied by template literals and by `localStorage.setItem`;
`none` stands for the `TypeError` it throws. A parsed JSON object without an own
`toString` property renders through `Object.prototype.toString`; with one, that property
is not callable and `valueOf` returns the object itself, so the conversion throws. An
array renders through `Array.prototype.join`. -/
def toStr : JSValue → Option String
  | undefined => some "undefined"
  | null => some "null"
  | bool true => some "true"
  | bool false => some "false"
  | num n => some n.text
  | str s => some s
  | arr xs => joinStr xs
  | obj fields => if hasKey "toString" fields then none else some "[object Object]"
/-- `Array.prototype.join(",")`: `undefined` and `null` elements render as "", every other
element through `ToString`, which may throw. -/
def joinStr : List JSValue → Option String
  | [] => some ""
  | [x] => elemStr x
  | x :: y :: rest =>
    match elemStr x, joinStr (y :: rest) with
    | some a, some b => some (a ++ "," ++ b)
    | _, _ => none
/-- One element of a joined array. -/
def elemStr : JSValue → Option String
  | undefined => some ""
  | null => some ""
  | bool true => some "true"
  | bool false => some "false"
  | num n => some n.text
  | str s => some s
  | arr xs => joinStr xs
  | obj fields => if hasKey "toString" fields then none else some "[object Object]"
end

end JSValue

/-! ## Strings -/

/-- ECMAScript `WhiteSpace` and `LineTerminator` code points, the characters that
`String.prototype.trim` strips. -/
def isWhiteSpace (c : Char) : Bool :=
  [0x0009, 0x000A, 0x000B, 0x000C, 0x000D, 0x0020, 0x00A0, 0x1680, 0x2028, 0x2029,
    0x202F, 0x205F, 0x3000, 0xFEFF].contains c.toNat
  || (0x2000 ≤ c.toNat && c.toNat ≤ 0x200A)

/-- `String.prototype.trim`: strips white space from both ends. -/
def trim (s : String) : String :=
  ⟨((s.data.dropWhile isWhiteSpace).reverse.dropWhile isWhiteSpace).reverse⟩

/-- A string that is empty or consists of white space only. -/
def blank (s : String) : Bool := s.data.all isWhiteSpace

/-! ## The environment: local storage, router, HTTP, console -/

/-- The browser's `localStorage`: string keys bound to string values. -/
abbrev Storage := List (String × String)

/-- `localStorage.getItem(k)`: `none` is JavaScript `null`. -/
def Storage.getItem (s : Storage) (k : String) : Option String :=
  match s with
  | [] => none
  | (k1, v) :: rest => if k1 = k then some v else Storage.getItem rest k

/-- `localStorage.setItem(k, v)`: rebinds an existing key in place, appends a new one. -/
def Storage.setItem (s : Storage) (k v : String) : Storage :=
  match s with
  | [] => [(k, v)]
  | (k1, v1) :: rest => if k1 = k then (k, v) :: rest else (k1, v1) :: Storage.setItem rest k v

/-- A request handed to axios: the method, the URL, the headers passed in the call's
config object, and the body (`undefined` for a GET). -/
structure Request where
  method : String
  url : String
  headers : List (String × String)
  body : JSValue

/-- What a handler can observe of a caught exception: its `response` property
(`undefined` on a `TypeError` and on an axios error without a response). -/
structure JSError where
  response : JSValue

/-- The `TypeError` of a property read on `undefined` or `null`. -/
def typeError : JSError := ⟨JSValue.undefined⟩

/-- How the promise returned by an axios call settles: it resolves with a response whose
`data` is given, or it rejects with an error. -/
inductive HttpOutcome where
  | resolved (data : JSValue)
  | rejected (error : JSError)

/-- One observable action of a handler on its environment. -/
inductive Effect where
  | httpRequest (req : Request)
  | storageSet (key value : String)
  | navigate (path : String)
  | consoleError (label : String)
  | storageClear

/-- Everything outside React state that the handlers touch: the content of local storage
and the actions performed so far, oldest first. -/
structure World where
  localStorage : Storage
  trace : List Effect

/-- The HTTP requests of a trace, in order. -/
def httpRequests : List Effect → List Request
  | [] => []
  | Effect.httpRequest req :: t => req :: httpRequests t
  | _ :: t => httpRequests t

/-- The router navigations of a trace, in order. -/
def navigations : List Effect → List String
  | [] => []
  | Effect.navigate path :: t => path :: navigations t
  | _ :: t => navigations t

/-- The local-storage writes of a trace, in order. -/
def storageWrites : List Effect → List (String × String)
  | [] => []
  | Effect.storageSet k v :: t => (k, v) :: storageWrites t
  | _ :: t => storageWrites t

/-- A handler body over component state `S`: it transforms state and world and either
completes with a value or throws. Effects made before a throw persist. -/
def Eff (S : Type) (α : Type) : Type := S × World → (S × World) × Except JSError α

/-- Completing with a value. -/
def Eff.pure {S α : Type} (a : α) : Eff S α := fun s => (s, Except.ok a)

/-- Sequencing: a throw in the first part skips the second. -/
def Eff.bind {S α β : Type} (m : Eff S α) (f : α → Eff S β) : Eff S β := fun s =>
  match m s with
  | (s1, Except.ok a) => f a s1
  | (s1, Except.error e) => (s1, Except.error e)

instance {S : Type} : Monad (Eff S) where
  pure := Eff.pure
  bind := Eff.bind

/-- The statement `try body catch (error) handler finally fin`. -/
def tryCatchFinally {S : Type} (body : Eff S Unit) (handler : JSError → Eff S Unit)
    (fin : Eff S Unit) : Eff S Unit := fun s =>
  match body s with
  | (s1, Except.ok _) => fin s1
  | (s1, Except.error e) =>
    match handler e s1 with
    | (s2, Except.ok _) => fin s2
    | (s2, Except.error e2) =>
      match fin s2 with
      | (s3, Except.ok _) => (s3, Except.error e2)
      | (s3, Except.error e3) => (s3, Except.error e3)

/-- The statement `try body catch (error) handler`. -/
def tryCatch {S : Type} (body : Eff S Unit) (handler : JSError → Eff S Unit) : Eff S Unit :=
  fun s =>
  match body s with
  | (s1, Except.ok _) => (s1, Except.ok ())
  | (s1, Except.error e) => handler e s1

/-- The state and world a handler leaves behind. -/
def Eff.exec {S : Type} (m : Eff S Unit) (st : S) (w : World) : S × World := (m (st, w)).1

/-- Property read that throws on `undefined` and `null`. -/
def prop {S : Type} (v : JSValue) (k : String) : Eff S JSValue := fun s =>
  match v.getProp k with
  | some x => (s, Except.ok x)
  | none => (s, Except.error typeError)

/-- The call `navigate(path)` of react-router. -/
def navigate {S : Type} (path : String) : Eff S Unit := fun s =>
  ((s.1, { s.2 with trace := s.2.trace ++ [Effect.navigate path] }), Except.ok ())

/-- The call `localStorage.setItem(k, v)`: the value is first converted to a string; when
that conversion throws, nothing is stored. -/
def localStorageSetItem {S : Type} (k : String) (v : JSValue) : Eff S Unit := fun s =>
  match v.toStr with
  | some text =>
    ((s.1, { localStorage := s.2.localStorage.setItem k text,
             trace := s.2.trace ++ [Effect.storageSet k text] }), Except.ok ())
  | none => (s, Except.error typeError)

/-- The conversion of an interpolated value of a template literal; it may throw. -/
def interpolate {S : Type} (v : JSValue) : Eff S String := fun s =>
  match v.toStr with
  | some text => (s, Except.ok text)
  | none => (s, Except.error typeError)

/-- The call `localStorage.getItem(k)`: the stored string, or `none` for `null`. -/
def localStorageGetItem {S : Type} (k : String) : Eff S (Option String) := fun s =>
  (s, Except.ok (s.2.localStorage.getItem k))

/-- The call `localStorage.clear()`: every binding is removed. -/
def localStorageClear {S : Type} : Eff S Unit := fun s =>
  ((s.1, { localStorage := [], trace := s.2.trace ++ [Effect.storageClear] }), Except.ok ())

/-- The call `console.error(label, error)`. -/
def consoleError {S : Type} (label : String) : Eff S Unit := fun s =>
  ((s.1, { s.2 with trace := s.2.trace ++ [Effect.consoleError label] }), Except.ok ())

/-- An awaited axios call: the request is issued, then the promise settles as `o` says. -/
def axiosRequest {S : Type} (req : Request) (o : HttpOutcome) : Eff S JSValue := fun s =>
  let s1 : S × World := (s.1, { s.2 with trace := s.2.trace ++ [Effect.httpRequest req] })
  match o with
  | HttpOutcome.resolved data => (s1, Except.ok data)
  | HttpOutcome.rejected error => (s1, Except.error error)

/-- The call `axios.post(url, body)`. -/
def axiosPost {S : Type} (url : String) (body : JSValue) (o : HttpOutcome) : Eff S JSValue :=
  axiosRequest ⟨"POST", url, [], body⟩ o

/-- The call `axios.get(url, { headers })`. -/
def axiosGet {S : Type} (url : String) (headers : List (String × String)) (o : HttpOutcome) :
    Eff S JSValue :=
  axiosRequest ⟨"GET", url, headers, JSValue.undefined⟩ o

/-- The constant `API`, the template literal built on `BACKEND_URL`
(`process.env.REACT_APP_BACKEND_URL`, a string or `undefined`, on both of which the
conversion to a string succeeds). -/
def API (BACKEND_URL : JSValue) : String := (BACKEND_URL.toStr.getD "") ++ "/api"

/-! ## The Login component -/

/-- React state of `Login`. -/
structure LoginState where
  username : String
  password : String
  isLoading : Bool

namespace Login

/-- The state setter `setIsLoading`. -/
def setIsLoading (b : Bool) : Eff LoginState Unit := fun s =>
  (({ s.1 with isLoading := b }, s.2), Except.ok ())

/-- The submit handler `handleLogin`, created in a render with state `r`;
`login` is how the POST to `/api/login` settles. -/
def handleLogin (BACKEND_URL : JSValue) (r : LoginState) (login : HttpOutcome) :
    Eff LoginState Unit := do
  setIsLoading true
  tryCatchFinally
    (do
      let data ← axiosPost (API BACKEND_URL ++ "/login")
        (JSValue.obj [("username", JSValue.str r.username), ("password", JSValue.str r.password)])
        login
      let success ← prop data "success"
      if success.truthy then
        let token ← prop data "token"
        localStorageSetItem "token" token
        let userId ← prop data "user_id"
        localStorageSetItem "user_id" userId
        let role ← prop data "role"
        localStorageSetItem "user_role" role
        navigate "/dashboard")
    (fun _ => consoleError "Login failed:")
    (setIsLoading false)

/-- A submit of the login form in the render showing state `st`: the state and world once
the call has completed. -/
def handleLoginDone (BACKEND_URL : JSValue) (st : LoginState) (w : World)
    (login : HttpOutcome) : LoginState × World :=
  (handleLogin BACKEND_URL st login).exec st w

/-- The POST to `/api/login` resolved and `response.data.success` is truthy. -/
def accepted : HttpOutcome → Bool
  | HttpOutcome.resolved data =>
    match data.getProp "success" with
    | some success => success.truthy
    | none => false
  | HttpOutcome.rejected _ => false

end Login

/-! ## The Dashboard component -/

/-- The object kept in the `user` state: `id`, `role` and `token` as read from local storage
(`role` may be `null`). -/
structure User where
  id : String
  role : Option String
  token : String

/-- One entry of the chat history. `none` in an annotation means the object literal has no
such property. -/
structure ChatMessage where
  role : String
  content : JSValue
  debug_info : Option JSValue
  data_leak : Option JSValue

/-- React state of `Dashboard`. -/
structure DashboardState where
  stocks : JSValue
  portfolio : JSValue
  chatMessages : List ChatMessage
  currentMessage : String
  isLoading : Bool
  user : Option User

namespace Dashboard

/-- The initial values given to `useState`. -/
def initialState : DashboardState :=
  ⟨JSValue.arr [], JSValue.arr [], [], "", false, none⟩

/-- The state setter `setStocks`. -/
def setStocks (v : JSValue) : Eff DashboardState Unit := fun s =>
  (({ s.1 with stocks := v }, s.2), Except.ok ())

/-- The state setter `setPortfolio`. -/
def setPortfolio (v : JSValue) : Eff DashboardState Unit := fun s =>
  (({ s.1 with portfolio := v }, s.2), Except.ok ())

/-- The state setter `setChatMessages`, called with an updater function. -/
def setChatMessages (f : List ChatMessage → List ChatMessage) : Eff DashboardState Unit :=
  fun s => (({ s.1 with chatMessages := f s.1.chatMessages }, s.2), Except.ok ())

/-- The state setter `setCurrentMessage`. -/
def setCurrentMessage (m : String) : Eff DashboardState Unit := fun s =>
  (({ s.1 with currentMessage := m }, s.2), Except.ok ())

/-- The state setter `setIsLoading`. -/
def setIsLoading (b : Bool) : Eff DashboardState Unit := fun s =>
  (({ s.1 with isLoading := b }, s.2), Except.ok ())

/-- Reading a property of the `user` object of the render; throws while `user` is `null`. -/
def userProp {α : Type} (user : Option User) (f : User → α) : Eff DashboardState α := fun s =>
  match user with
  | some u => (s, Except.ok (f u))
  | none => (s, Except.error typeError)

/-- The function `loadDashboardData(userId, token)`; `stocks` and `portfolio` are how the
two GET requests settle. -/
def loadDashboardData (BACKEND_URL : JSValue) (userId token : String)
    (stocks portfolio : HttpOutcome) : Eff DashboardState Unit :=
  tryCatch
    (do
      let stocksData ← axiosGet (API BACKEND_URL ++ "/stocks") [] stocks
      setStocks stocksData
      let portfolioData ← axiosGet (API BACKEND_URL ++ "/portfolio/" ++ userId)
        [("Authorization", "Bearer " ++ token)] portfolio
      let portfolios ← prop portfolioData "portfolios"
      setPortfolio (portfolios.or (JSValue.arr [])))
    (fun _ => consoleError "Error loading dashboard data:")

/-- The value interpolated into the error bubble:
`error.response?.data?.detail || "Failed to connect to AI service"`. -/
def errorDetail (error : JSError) : JSValue :=
  ((error.response.optProp "data").optProp "detail").or
    (JSValue.str "Failed to connect to AI service")

/-- The function `sendMessage`, created in a render with state `r` (the closure reads
`currentMessage`, `isLoading` and `user` of that render); `chat` is how the POST to
`/api/chat` settles. -/
def sendMessage (BACKEND_URL : JSValue) (r : DashboardState) (chat : HttpOutcome) :
    Eff DashboardState Unit :=
  if (trim r.currentMessage == "") || r.isLoading then pure () else do
    let userMessage : ChatMessage := ⟨"user", JSValue.str r.currentMessage, none, none⟩
    setChatMessages (fun prev => prev ++ [userMessage])
    setCurrentMessage ""
    setIsLoading true
    tryCatchFinally
      (do
        let userId ← userProp r.user (fun u => u.id)
        let sessionToken ← userProp r.user (fun u => u.token)
        let data ← axiosPost (API BACKEND_URL ++ "/chat")
          (JSValue.obj [("message", JSValue.str r.currentMessage),
            ("user_id", JSValue.str userId), ("session_token", JSValue.str sessionToken)])
          chat
        let content ← prop data "response"
        let debugInfo ← prop data "system_info"
        let dataLeak ← prop data "data_leakage_warning"
        let aiMessage : ChatMessage := ⟨"assistant", content, some debugInfo, some dataLeak⟩
        setChatMessages (fun prev => prev ++ [aiMessage]))
      (fun error => do
        consoleError "Chat error:"
        let text ← interpolate (errorDetail error)
        let errorMessage : ChatMessage :=
          ⟨"assistant", JSValue.str ("Error: " ++ text), none, none⟩
        setChatMessages (fun prev => prev ++ [errorMessage]))
      (setIsLoading false)

/-- A click on the send button (or Enter) in the render showing state `st`: the state and
world once the call has completed. -/
def sendMessageDone (BACKEND_URL : JSValue) (st : DashboardState) (w : World)
    (chat : HttpOutcome) : DashboardState × World :=
  (sendMessage BACKEND_URL st chat).exec st w

/-- A call of `loadDashboardData(userId, token)` in state `st`: the state and world once the
call has completed. -/
def loadDashboardDataDone (BACKEND_URL : JSValue) (userId token : String)
    (st : DashboardState) (w : World) (stocks portfolio : HttpOutcome) :
    DashboardState × World :=
  (loadDashboardData BACKEND_URL userId token stocks portfolio).exec st w

/-- A sequence of completed `sendMessage` calls. Before each call the user has typed `typed`
into the input field (`onChange` sets `currentMessage`); `chat` is how that call's POST
settles. -/
def sendAll (BACKEND_URL : JSValue) :
    List (String × HttpOutcome) → DashboardState × World → DashboardState × World
  | [], s => s
  | (typed, chat) :: rest, s =>
    sendAll BACKEND_URL rest
      (sendMessageDone BACKEND_URL { s.1 with currentMessage := typed } s.2 chat)

/-- The `catch` block of `sendMessage` completes for this outcome of the POST: the value it
interpolates into the error bubble can be converted to a string. -/
def catchCompletes : HttpOutcome → Bool
  | HttpOutcome.resolved _ => true
  | HttpOutcome.rejected error => (errorDetail error).toStr.isSome

/-- The state setter `setUser`. -/
def setUser (u : User) : Eff DashboardState Unit := fun s =>
  (({ s.1 with user := some u }, s.2), Except.ok ())

/-- The effect run when `Dashboard` mounts. The test `!token || !userId` holds when either
item is `null` (not stored) or the empty string; otherwise both are non-empty strings.
The call of `loadDashboardData` is not awaited and cannot reject (its body is one `try`
with a `catch`); `stocks` and `portfolio` are how its two GET requests settle. -/
def mountEffect (BACKEND_URL : JSValue) (stocks portfolio : HttpOutcome) :
    Eff DashboardState Unit := do
  let token ← localStorageGetItem "token"
  let userId ← localStorageGetItem "user_id"
  let userRole ← localStorageGetItem "user_role"
  match token, userId with
  | some token, some userId =>
    if (token == "") || (userId == "") then
      navigate "/"
    else do
      setUser ⟨userId, userRole, token⟩
      loadDashboardData BACKEND_URL userId token stocks portfolio
  | _, _ => navigate "/"

/-- A mount of `Dashboard` in state `st`: the state and world once the effect and the load
it starts have completed. -/
def mountDone (BACKEND_URL : JSValue) (st : DashboardState) (w : World)
    (stocks portfolio : HttpOutcome) : DashboardState × World :=
  (mountEffect BACKEND_URL stocks portfolio).exec st w

/-- The click handler `handleLogout`. -/
def handleLogout : Eff DashboardState Unit := do
  localStorageClear
  navigate "/"

/-- A click on Logout in state `st`: the state and world after the handler. -/
def handleLogoutDone (st : DashboardState) (w : World) : DashboardState × World :=
  handleLogout.exec st w

end Dashboard

/-! ## Auxiliary facts -/

theorem httpRequests_append (a b : List Effect) :
    httpRequests (a ++ b) = httpRequests a ++ httpRequests b := by
  induction a with
  | nil => rfl
  | cons e t ih => cases e <;> simp [httpRequests, ih]

theorem navigations_append (a b : List Effect) :
    navigations (a ++ b) = navigations a ++ navigations b := by
  induction a with
  | nil => rfl
  | cons e t ih => cases e <;> simp [navigations, ih]

theorem storageWrites_append (a b : List Effect) :
    storageWrites (a ++ b) = storageWrites a ++ storageWrites b := by
  induction a with
  | nil => rfl
  | cons e t ih => cases e <;> simp [storageWrites, ih]

theorem Storage.getItem_setItem_same (s : Storage) (k v : String) :
    Storage.getItem (Storage.setItem s k v) k = some v := by
  induction s with
  | nil => simp [Storage.setItem, Storage.getItem]
  | cons p rest ih =>
    obtain ⟨k1, v1⟩ := p
    by_cases h : k1 = k
    · simp [Storage.setItem, Storage.getItem, h]
    · simp [Storage.setItem, Storage.getItem, h, ih]

theorem Storage.getItem_setItem_other (s : Storage) (k v k2 : String) (hne : k2 ≠ k) :
    Storage.getItem (Storage.setItem s k v) k2 = Storage.getItem s k2 := by
  induction s with
  | nil => simp [Storage.setItem, Storage.getItem, Ne.symm hne]
  | cons p rest ih =>
    obtain ⟨k1, v1⟩ := p
    by_cases h : k1 = k
    · subst h
      simp [Storage.setItem, Storage.getItem, Ne.symm hne]
    · by_cases h2 : k1 = k2
      · subst h2
        simp [Storage.setItem, Storage.getItem, h]
      · simp [Storage.setItem, Storage.getItem, h, h2, ih]

/-- A property read on a value that is neither `undefined` nor `null` does not throw and
yields what optional chaining yields. -/
theorem JSValue.getProp_of_not_nullish (v : JSValue) (k : String) (h : v.isNullish = false) :
    v.getProp k = some (v.optProp k) := by
  cases v <;> simp_all [JSValue.getProp, JSValue.optProp, JSValue.isNullish]

theorem JSValue.not_nullish_of_getProp (v : JSValue) (k : String) (x : JSValue)
    (h : v.getProp k = some x) : v.isNullish = false := by
  cases v <;> simp_all [JSValue.getProp, JSValue.isNullish]

/-! ## Login -/

/-- C1. Whatever the user name, the password and the outcome of the POST to `/api/login`:
unless the request resolves with a truthy `success` flag (so: when it throws, or the flag
is falsy or cannot be read), `handleLogin` leaves local storage exactly as it was, performs
no storage write and no navigation. Writes and navigation therefore happen only on a
truthy `success`. -/
theorem handleLogin_silent_unless_accepted (BACKEND_URL : JSValue) (st : LoginState)
    (w : World) (login : HttpOutcome) (h : Login.accepted login = false) :
    (Login.handleLoginDone BACKEND_URL st w login).2.localStorage = w.localStorage
    ∧ storageWrites (Login.handleLoginDone BACKEND_URL st w login).2.trace
        = storageWrites w.trace
    ∧ navigations (Login.handleLoginDone BACKEND_URL st w login).2.trace
        = navigations w.trace := by
  cases login with
  | rejected e =>
    simp [Login.handleLoginDone, Login.handleLogin, Eff.exec, bind, Eff.bind,
      tryCatchFinally, Login.setIsLoading, axiosPost, axiosRequest, consoleError,
      storageWrites_append, navigations_append, storageWrites, navigations]
  | resolved data =>
    cases hd : data.getProp "success" with
    | none =>
      simp [Login.handleLoginDone, Login.handleLogin, Eff.exec, bind, Eff.bind,
        tryCatchFinally, Login.setIsLoading, axiosPost, axiosRequest, consoleError, prop, hd,
        storageWrites_append, navigations_append, storageWrites, navigations]
    | some success =>
      have hs : success.truthy = false := by simpa [Login.accepted, hd] using h
      simp [Login.handleLoginDone, Login.handleLogin, Eff.exec, bind, Eff.bind,
        tryCatchFinally, Login.setIsLoading, axiosPost, axiosRequest, consoleError, prop, hd,
        hs, pure, Eff.pure,
        storageWrites_append, navigations_append, storageWrites, navigations]

theorem handleLogin_silent_unless_accepted_witness :
    Login.accepted (HttpOutcome.resolved
        (JSValue.obj [("success", JSValue.bool false), ("token", JSValue.str "t0")])) = false
    ∧ (Login.handleLoginDone (JSValue.str "http://localhost:8001")
        ⟨"john_trader", "pw", false⟩ ⟨[("theme", "dark")], []⟩
        (HttpOutcome.resolved
          (JSValue.obj [("success", JSValue.bool false), ("token", JSValue.str "t0")]))
        ).2.localStorage = [("theme", "dark")] :=
  ⟨by rfl,
    (handleLogin_silent_unless_accepted (JSValue.str "http://localhost:8001")
      ⟨"john_trader", "pw", false⟩ ⟨[("theme", "dark")], []⟩
      (HttpOutcome.resolved
        (JSValue.obj [("success", JSValue.bool false), ("token", JSValue.str "t0")]))
      (by rfl)).1⟩

/-- C2, as the code has it. The POST to `/api/login` resolves, the `success` flag of the body
is truthy, and the body's `token`, `user_id` and `role` can be converted to strings (`tk`,
`uid`, `rl`; the conversion `setItem` applies succeeds on every string, number, boolean,
`null` and missing value, and leaves a string as it is). Then `handleLogin` issues that one
POST, writes `tk`, `uid` and `rl` under the keys `token`, `user_id` and `user_role`, then
navigates to `/dashboard`, and does nothing else: every other key of local storage keeps
its binding. -/
theorem handleLogin_stores_session (BACKEND_URL : JSValue) (st : LoginState) (w : World)
    (data success : JSValue) (tk uid rl : String)
    (hflag : data.getProp "success" = some success) (htrue : success.truthy = true)
    (htk : (data.optProp "token").toStr = some tk)
    (huid : (data.optProp "user_id").toStr = some uid)
    (hrl : (data.optProp "role").toStr = some rl) :
    (Login.handleLoginDone BACKEND_URL st w (HttpOutcome.resolved data)).2.trace
        = w.trace ++
          [Effect.httpRequest ⟨"POST", API BACKEND_URL ++ "/login", [],
              JSValue.obj [("username", JSValue.str st.username),
                ("password", JSValue.str st.password)]⟩,
            Effect.storageSet "token" tk,
            Effect.storageSet "user_id" uid,
            Effect.storageSet "user_role" rl,
            Effect.navigate "/dashboard"]
    ∧ (Login.handleLoginDone BACKEND_URL st w (HttpOutcome.resolved data)).2.localStorage
        = ((w.localStorage.setItem "token" tk).setItem "user_id" uid).setItem "user_role" rl
    ∧ (Login.handleLoginDone BACKEND_URL st w (HttpOutcome.resolved data)).2.localStorage.getItem
        "token" = some tk
    ∧ (Login.handleLoginDone BACKEND_URL st w (HttpOutcome.resolved data)).2.localStorage.getItem
        "user_id" = some uid
    ∧ (Login.handleLoginDone BACKEND_URL st w (HttpOutcome.resolved data)).2.localStorage.getItem
        "user_role" = some rl
    ∧ (∀ t : String, data.optProp "token" = JSValue.str t → tk = t)
    ∧ (∀ t : String, data.optProp "user_id" = JSValue.str t → uid = t)
    ∧ (∀ t : String, data.optProp "role" = JSValue.str t → rl = t)
    ∧ (∀ k : String, k ≠ "token" → k ≠ "user_id" → k ≠ "user_role" →
        (Login.handleLoginDone BACKEND_URL st w
          (HttpOutcome.resolved data)).2.localStorage.getItem k = w.localStorage.getItem k) := by
  have hnn : data.isNullish = false := JSValue.not_nullish_of_getProp data "success" success hflag
  have hstore :
      (Login.handleLoginDone BACKEND_URL st w (HttpOutcome.resolved data)).2.localStorage
        = ((w.localStorage.setItem "token" tk).setItem "user_id" uid).setItem
            "user_role" rl := by
    simp [Login.handleLoginDone, Login.handleLogin, Eff.exec, bind, Eff.bind,
      tryCatchFinally, Login.setIsLoading, axiosPost, axiosRequest, prop, hflag, htrue,
      JSValue.getProp_of_not_nullish data _ hnn, localStorageSetItem, navigate, htk, huid, hrl]
  refine ⟨?_, hstore, ?_, ?_, ?_, ?_, ?_, ?_, ?_⟩
  · simp [Login.handleLoginDone, Login.handleLogin, Eff.exec, bind, Eff.bind,
      tryCatchFinally, Login.setIsLoading, axiosPost, axiosRequest, prop, hflag, htrue,
      JSValue.getProp_of_not_nullish data _ hnn, localStorageSetItem, navigate, htk, huid, hrl]
  · rw [hstore, Storage.getItem_setItem_other _ _ _ _ (by decide),
      Storage.getItem_setItem_other _ _ _ _ (by decide), Storage.getItem_setItem_same]
  · rw [hstore, Storage.getItem_setItem_other _ _ _ _ (by decide),
      Storage.getItem_setItem_same]
  · rw [hstore, Storage.getItem_setItem_same]
  · intro t ht
    rw [ht] at htk
    simpa [JSValue.toStr] using htk.symm
  · intro t ht
    rw [ht] at huid
    simpa [JSValue.toStr] using huid.symm
  · intro t ht
    rw [ht] at hrl
    simpa [JSValue.toStr] using hrl.symm
  · intro k h1 h2 h3
    rw [hstore, Storage.getItem_setItem_other _ _ _ _ h3,
      Storage.getItem_setItem_other _ _ _ _ h2, Storage.getItem_setItem_other _ _ _ _ h1]

theorem handleLogin_stores_session_witness :
    (JSValue.obj [("success", JSValue.bool true), ("token", JSValue.str "tok-1"),
        ("user_id", JSValue.str "u-7"), ("role", JSValue.str "trader")]).getProp "success"
      = some (JSValue.bool true)
    ∧ (JSValue.bool true).truthy = true
    ∧ (JSValue.str "tok-1").toStr = some "tok-1"
    ∧ (Login.handleLoginDone (JSValue.str "http://localhost:8001")
        ⟨"john_trader", "pw", false⟩ ⟨[("theme", "dark")], []⟩
        (HttpOutcome.resolved
          (JSValue.obj [("success", JSValue.bool true), ("token", JSValue.str "tok-1"),
            ("user_id", JSValue.str "u-7"), ("role", JSValue.str "trader")]))).2.localStorage
      = [("theme", "dark"), ("token", "tok-1"), ("user_id", "u-7"), ("user_role", "trader")] :=
  ⟨by rfl, by rfl, by rfl,
    (handleLogin_stores_session (JSValue.str "http://localhost:8001")
      ⟨"john_trader", "pw", false⟩ ⟨[("theme", "dark")], []⟩
      (JSValue.obj [("success", JSValue.bool true), ("token", JSValue.str "tok-1"),
        ("user_id", JSValue.str "u-7"), ("role", JSValue.str "trader")])
      (JSValue.bool true) "tok-1" "u-7" "trader" (by rfl) (by rfl) (by rfl) (by rfl)
      (by rfl)).2.1⟩

/-- C2 as stated fails: the login response has a truthy `success` flag and its `token` is
the JSON object with the single key `toString` (bound to the number 1). Converting that
token to a string throws inside the `try` block at the first `setItem`: nothing is stored,
there is no navigation, and the failure is only logged. -/
theorem handleLogin_unstorable_token_counterexample :
    Login.accepted (HttpOutcome.resolved
        (JSValue.obj [("success", JSValue.bool true),
          ("token", JSValue.obj [("toString", JSValue.num ⟨true, "1"⟩)]),
          ("user_id", JSValue.str "u-7"), ("role", JSValue.str "trader")])) = true
    ∧ (Login.handleLoginDone (JSValue.str "http://localhost:8001")
        ⟨"john_trader", "pw", false⟩ ⟨[("theme", "dark")], []⟩
        (HttpOutcome.resolved
          (JSValue.obj [("success", JSValue.bool true),
            ("token", JSValue.obj [("toString", JSValue.num ⟨true, "1"⟩)]),
            ("user_id", JSValue.str "u-7"), ("role", JSValue.str "trader")]))).2.localStorage
      = [("theme", "dark")]
    ∧ (Login.handleLoginDone (JSValue.str "http://localhost:8001")
        ⟨"john_trader", "pw", false⟩ ⟨[("theme", "dark")], []⟩
        (HttpOutcome.resolved
          (JSValue.obj [("success", JSValue.bool true),
            ("token", JSValue.obj [("toString", JSValue.num ⟨true, "1"⟩)]),
            ("user_id", JSValue.str "u-7"), ("role", JSValue.str "trader")]))).2.trace
      = [Effect.httpRequest ⟨"POST", "http://localhost:8001/api/login", [],
            JSValue.obj [("username", JSValue.str "john_trader"),
              ("password", JSValue.str "pw")]⟩,
          Effect.consoleError "Login failed:"] :=
  ⟨rfl, rfl, rfl⟩

/-! ## Dashboard: the chat handler -/

/-- Trimming leaves nothing exactly when the string is blank. -/
theorem trim_eq_empty_iff (s : String) : trim s = "" ↔ blank s = true := by
  unfold trim blank
  rw [String.ext_iff]
  simp only [List.reverse_eq_nil_iff, List.all_eq_true]
  constructor
  · intro h
    have hall : ∀ x ∈ (s.data.dropWhile isWhiteSpace).reverse, isWhiteSpace x = true :=
      List.dropWhile_eq_nil_iff.mp h
    have hnil : s.data.dropWhile isWhiteSpace = [] := by
      by_contra hne
      have hhead := List.head_dropWhile_not isWhiteSpace s.data hne
      have hmem : (s.data.dropWhile isWhiteSpace).head hne
          ∈ (s.data.dropWhile isWhiteSpace).reverse :=
        List.mem_reverse.mpr (List.head_mem hne)
      have := hall _ hmem
      simp [this] at hhead
    exact List.dropWhile_eq_nil_iff.mp hnil
  · intro h
    have hnil : s.data.dropWhile isWhiteSpace = [] := List.dropWhile_eq_nil_iff.mpr h
    simp [hnil]

/-- The guard of `sendMessage` holds: nothing happens. -/
theorem sendMessageDone_guarded (BACKEND_URL : JSValue) (st : DashboardState) (w : World)
    (chat : HttpOutcome) (h : blank st.currentMessage = true ∨ st.isLoading = true) :
    Dashboard.sendMessageDone BACKEND_URL st w chat = (st, w) := by
  have hg : ((trim st.currentMessage == "") || st.isLoading) = true := by
    rcases h with h | h
    · simp [(trim_eq_empty_iff st.currentMessage).mpr h]
    · simp [h]
  simp [Dashboard.sendMessageDone, Dashboard.sendMessage, hg, Eff.exec, pure, Eff.pure]

/-- The guard of `sendMessage` is passed by a non-blank message while not loading. -/
theorem sendMessage_guard_open (st : DashboardState) (hmsg : blank st.currentMessage = false)
    (hload : st.isLoading = false) :
    ((trim st.currentMessage == "") || st.isLoading) = false := by
  have hne : trim st.currentMessage ≠ "" := by
    intro h
    rw [(trim_eq_empty_iff st.currentMessage).mp h] at hmsg
    exact Bool.noConfusion hmsg
  simp [hne, hload]

/-- The POST resolved with a body on which property reads succeed. -/
theorem sendMessageDone_resolved (BACKEND_URL : JSValue) (st : DashboardState) (w : World)
    (u : User) (data : JSValue) (hmsg : blank st.currentMessage = false)
    (hload : st.isLoading = false) (huser : st.user = some u)
    (hbody : data.isNullish = false) :
    Dashboard.sendMessageDone BACKEND_URL st w (HttpOutcome.resolved data)
      = ({ st with
            chatMessages := st.chatMessages ++
              [⟨"user", JSValue.str st.currentMessage, none, none⟩,
                ⟨"assistant", data.optProp "response", some (data.optProp "system_info"),
                  some (data.optProp "data_leakage_warning")⟩],
            currentMessage := "",
            isLoading := false },
          { w with
            trace := w.trace ++
              [Effect.httpRequest ⟨"POST", API BACKEND_URL ++ "/chat", [],
                JSValue.obj [("message", JSValue.str st.currentMessage),
                  ("user_id", JSValue.str u.id), ("session_token", JSValue.str u.token)]⟩] }) := by
  simp [Dashboard.sendMessageDone, Dashboard.sendMessage, sendMessage_guard_open st hmsg hload,
    Eff.exec, bind, Eff.bind, tryCatchFinally, Dashboard.setChatMessages,
    Dashboard.setCurrentMessage, Dashboard.setIsLoading, Dashboard.userProp, huser, axiosPost,
    axiosRequest, prop, JSValue.getProp_of_not_nullish data _ hbody]

/-- The request was issued and an exception `e` reached the `catch` block: the promise
rejected with `e`, or the body was `null` and reading it threw the `TypeError` `e`. The
value interpolated into the error bubble converts to the string `text`. -/
theorem sendMessageDone_caught (BACKEND_URL : JSValue) (st : DashboardState) (w : World)
    (u : User) (chat : HttpOutcome) (e : JSError) (text : String)
    (hmsg : blank st.currentMessage = false)
    (hload : st.isLoading = false) (huser : st.user = some u)
    (hthrow : chat = HttpOutcome.rejected e
      ∨ (∃ data, chat = HttpOutcome.resolved data ∧ data.isNullish = true ∧ e = typeError))
    (htext : (Dashboard.errorDetail e).toStr = some text) :
    Dashboard.sendMessageDone BACKEND_URL st w chat
      = ({ st with
            chatMessages := st.chatMessages ++
              [⟨"user", JSValue.str st.currentMessage, none, none⟩,
                ⟨"assistant", JSValue.str ("Error: " ++ text), none, none⟩],
            currentMessage := "",
            isLoading := false },
          { w with
            trace := w.trace ++
              [Effect.httpRequest ⟨"POST", API BACKEND_URL ++ "/chat", [],
                JSValue.obj [("message", JSValue.str st.currentMessage),
                  ("user_id", JSValue.str u.id), ("session_token", JSValue.str u.token)]⟩,
                Effect.consoleError "Chat error:"] }) := by
  rcases hthrow with h | ⟨data, h, hnull, he⟩
  · subst h
    simp [Dashboard.sendMessageDone, Dashboard.sendMessage,
      sendMessage_guard_open st hmsg hload,
      Eff.exec, bind, Eff.bind, tryCatchFinally, Dashboard.setChatMessages,
      Dashboard.setCurrentMessage, Dashboard.setIsLoading, Dashboard.userProp, huser, axiosPost,
      axiosRequest, consoleError, interpolate, htext]
  · subst h he
    cases data <;> simp [JSValue.isNullish] at hnull <;>
    simp [Dashboard.sendMessageDone, Dashboard.sendMessage,
      sendMessage_guard_open st hmsg hload,
      Eff.exec, bind, Eff.bind, tryCatchFinally, Dashboard.setChatMessages,
      Dashboard.setCurrentMessage, Dashboard.setIsLoading, Dashboard.userProp, huser, axiosPost,
      axiosRequest, consoleError, prop, JSValue.getProp, interpolate, htext]

/-- The promise rejected with `e` and the value interpolated into the error bubble cannot be
converted to a string: the `catch` block throws before it appends anything, the `finally`
block still resets the loading flag. -/
theorem sendMessageDone_catch_throws (BACKEND_URL : JSValue) (st : DashboardState)
    (w : World) (u : User) (e : JSError) (hmsg : blank st.currentMessage = false)
    (hload : st.isLoading = false) (huser : st.user = some u)
    (htext : (Dashboard.errorDetail e).toStr = none) :
    Dashboard.sendMessageDone BACKEND_URL st w (HttpOutcome.rejected e)
      = ({ st with
            chatMessages := st.chatMessages ++
              [⟨"user", JSValue.str st.currentMessage, none, none⟩],
            currentMessage := "",
            isLoading := false },
          { w with
            trace := w.trace ++
              [Effect.httpRequest ⟨"POST", API BACKEND_URL ++ "/chat", [],
                JSValue.obj [("message", JSValue.str st.currentMessage),
                  ("user_id", JSValue.str u.id), ("session_token", JSValue.str u.token)]⟩,
                Effect.consoleError "Chat error:"] }) := by
  simp [Dashboard.sendMessageDone, Dashboard.sendMessage,
    sendMessage_guard_open st hmsg hload,
    Eff.exec, bind, Eff.bind, tryCatchFinally, Dashboard.setChatMessages,
    Dashboard.setCurrentMessage, Dashboard.setIsLoading, Dashboard.userProp, huser, axiosPost,
    axiosRequest, consoleError, interpolate, htext]

/-- The bubble text for a `TypeError` is the fallback text. -/
theorem errorDetail_typeError :
    (Dashboard.errorDetail typeError).toStr = some "Failed to connect to AI service" := by
  rfl

/-- While `user` is `null` the read of `user.id` throws before any request is made. -/
theorem sendMessageDone_no_user (BACKEND_URL : JSValue) (st : DashboardState) (w : World)
    (chat : HttpOutcome) (hmsg : blank st.currentMessage = false)
    (hload : st.isLoading = false) (huser : st.user = none) :
    Dashboard.sendMessageDone BACKEND_URL st w chat
      = ({ st with
            chatMessages := st.chatMessages ++
              [⟨"user", JSValue.str st.currentMessage, none, none⟩,
                ⟨"assistant", JSValue.str "Error: Failed to connect to AI service",
                  none, none⟩],
            currentMessage := "",
            isLoading := false },
          { w with trace := w.trace ++ [Effect.consoleError "Chat error:"] }) := by
  simp [Dashboard.sendMessageDone, Dashboard.sendMessage, sendMessage_guard_open st hmsg hload,
    Eff.exec, bind, Eff.bind, tryCatchFinally, Dashboard.setChatMessages,
    Dashboard.setCurrentMessage, Dashboard.setIsLoading, Dashboard.userProp, huser,
    consoleError, interpolate, errorDetail_typeError]

/-- C3, as the code has it. A non-blank message is sent while not loading and the POST to
`/api/chat` rejects with error `e`; write `detail` for `e.response?.data?.detail`. When
`detail` is falsy (missing, `null`, `false`, the number zero or `NaN`, the empty string)
the history grows by the user's message followed by exactly one assistant message without
debug or leak annotation whose content is `Error: Failed to connect to AI service`. When
`detail` is truthy and converts to the string `text`, that one message reads `Error: `
followed by `text`; a non-empty string detail is shown as it is. -/
theorem sendMessage_failure_appends_error (BACKEND_URL : JSValue) (st : DashboardState)
    (w : World) (u : User) (e : JSError) (hmsg : blank st.currentMessage = false)
    (hload : st.isLoading = false) (huser : st.user = some u) :
    (((e.response.optProp "data").optProp "detail").truthy = false →
        (Dashboard.sendMessageDone BACKEND_URL st w (HttpOutcome.rejected e)).1.chatMessages
          = st.chatMessages ++
            [⟨"user", JSValue.str st.currentMessage, none, none⟩,
              ⟨"assistant", JSValue.str "Error: Failed to connect to AI service",
                none, none⟩])
    ∧ (∀ text : String, ((e.response.optProp "data").optProp "detail").truthy = true →
        ((e.response.optProp "data").optProp "detail").toStr = some text →
        (Dashboard.sendMessageDone BACKEND_URL st w (HttpOutcome.rejected e)).1.chatMessages
          = st.chatMessages ++
            [⟨"user", JSValue.str st.currentMessage, none, none⟩,
              ⟨"assistant", JSValue.str ("Error: " ++ text), none, none⟩])
    ∧ (∀ s : String, (e.response.optProp "data").optProp "detail" = JSValue.str s → s ≠ "" →
        (Dashboard.sendMessageDone BACKEND_URL st w (HttpOutcome.rejected e)).1.chatMessages
          = st.chatMessages ++
            [⟨"user", JSValue.str st.currentMessage, none, none⟩,
              ⟨"assistant", JSValue.str ("Error: " ++ s), none, none⟩]) := by
  refine ⟨?_, ?_, ?_⟩
  · intro hf
    rw [sendMessageDone_caught BACKEND_URL st w u _ e "Failed to connect to AI service"
      hmsg hload huser (Or.inl rfl) (by simp [Dashboard.errorDetail, JSValue.or, hf,
        JSValue.toStr])]
    rfl
  · intro text ht htext
    rw [sendMessageDone_caught BACKEND_URL st w u _ e text hmsg hload huser (Or.inl rfl)
      (by simp [Dashboard.errorDetail, JSValue.or, ht, htext])]
  · intro s hs hne
    rw [sendMessageDone_caught BACKEND_URL st w u _ e s hmsg hload huser (Or.inl rfl)
      (by simp [Dashboard.errorDetail, JSValue.or, hs, JSValue.truthy, hne, JSValue.toStr])]

theorem sendMessage_failure_appends_error_witness :
    blank "Show my portfolio" = false
    ∧ (JSValue.str "Invalid session").truthy = true
    ∧ (Dashboard.sendMessageDone (JSValue.str "http://localhost:8001")
        ⟨JSValue.arr [], JSValue.arr [], [], "Show my portfolio", false,
          some ⟨"u-7", some "trader", "tok-1"⟩⟩
        ⟨[], []⟩
        (HttpOutcome.rejected ⟨JSValue.obj [("data",
          JSValue.obj [("detail", JSValue.str "Invalid session")])]⟩)).1.chatMessages
      = [⟨"user", JSValue.str "Show my portfolio", none, none⟩,
          ⟨"assistant", JSValue.str "Error: Invalid session", none, none⟩] :=
  ⟨by decide, rfl,
    (sendMessage_failure_appends_error (JSValue.str "http://localhost:8001")
      ⟨JSValue.arr [], JSValue.arr [], [], "Show my portfolio", false,
        some ⟨"u-7", some "trader", "tok-1"⟩⟩
      ⟨[], []⟩ ⟨"u-7", some "trader", "tok-1"⟩
      ⟨JSValue.obj [("data", JSValue.obj [("detail", JSValue.str "Invalid session")])]⟩
      (by decide) rfl rfl).2.1 "Invalid session" rfl rfl⟩

/-- C3 as stated fails, on three failed POSTs of the message `Show my portfolio`.
With the detail `false` (present, and not empty) the bubble shows the fallback text, not the
detail. With the detail `[]` (present, but empty) the bubble shows `Error: ` and nothing
after it, not the fallback text. With the detail `{"toString": 1}` the conversion inside the
`catch` block throws and no assistant message is appended at all. -/
theorem sendMessage_failure_detail_counterexample :
    (Dashboard.sendMessageDone (JSValue.str "http://localhost:8001")
        ⟨JSValue.arr [], JSValue.arr [], [], "Show my portfolio", false,
          some ⟨"u-7", some "trader", "tok-1"⟩⟩
        ⟨[], []⟩
        (HttpOutcome.rejected ⟨JSValue.obj [("data",
          JSValue.obj [("detail", JSValue.bool false)])]⟩)).1.chatMessages
      = [⟨"user", JSValue.str "Show my portfolio", none, none⟩,
          ⟨"assistant", JSValue.str "Error: Failed to connect to AI service", none, none⟩]
    ∧ (Dashboard.sendMessageDone (JSValue.str "http://localhost:8001")
        ⟨JSValue.arr [], JSValue.arr [], [], "Show my portfolio", false,
          some ⟨"u-7", some "trader", "tok-1"⟩⟩
        ⟨[], []⟩
        (HttpOutcome.rejected ⟨JSValue.obj [("data",
          JSValue.obj [("detail", JSValue.arr [])])]⟩)).1.chatMessages
      = [⟨"user", JSValue.str "Show my portfolio", none, none⟩,
          ⟨"assistant", JSValue.str "Error: ", none, none⟩]
    ∧ (Dashboard.sendMessageDone (JSValue.str "http://localhost:8001")
        ⟨JSValue.arr [], JSValue.arr [], [], "Show my portfolio", false,
          some ⟨"u-7", some "trader", "tok-1"⟩⟩
        ⟨[], []⟩
        (HttpOutcome.rejected ⟨JSValue.obj [("data",
          JSValue.obj [("detail",
            JSValue.obj [("toString", JSValue.num ⟨true, "1"⟩)])])]⟩)).1.chatMessages
      = [⟨"user", JSValue.str "Show my portfolio", none, none⟩] :=
  ⟨rfl, rfl, rfl⟩

/-- C4, as the code has it. A non-blank message is sent while not loading and the POST to
`/api/chat` resolves with a body `data` other than `null`. Then the history grows by exactly
two messages: the user's message with the typed text verbatim, then an assistant message
whose content is `data.response` and whose leak annotation is `data.data_leakage_warning`;
the input field is cleared. -/
theorem sendMessage_success_appends_exchange (BACKEND_URL : JSValue) (st : DashboardState)
    (w : World) (u : User) (data : JSValue) (hmsg : blank st.currentMessage = false)
    (hload : st.isLoading = false) (huser : st.user = some u)
    (hbody : data.isNullish = false) :
    (∃ debug : Option JSValue,
      (Dashboard.sendMessageDone BACKEND_URL st w (HttpOutcome.resolved data)).1.chatMessages
        = st.chatMessages ++
          [⟨"user", JSValue.str st.currentMessage, none, none⟩,
            ⟨"assistant", data.optProp "response", debug,
              some (data.optProp "data_leakage_warning")⟩])
    ∧ (Dashboard.sendMessageDone BACKEND_URL st w
        (HttpOutcome.resolved data)).1.currentMessage = "" := by
  rw [sendMessageDone_resolved BACKEND_URL st w u data hmsg hload huser hbody]
  exact ⟨⟨_, rfl⟩, rfl⟩

theorem sendMessage_success_appends_exchange_witness :
    blank " Buy 10 AAPL " = false
    ∧ (∃ debug : Option JSValue,
      (Dashboard.sendMessageDone (JSValue.str "http://localhost:8001")
        ⟨JSValue.arr [], JSValue.arr [], [], " Buy 10 AAPL ", false,
          some ⟨"u-7", some "trader", "tok-1"⟩⟩
        ⟨[], []⟩
        (HttpOutcome.resolved (JSValue.obj [("response", JSValue.str "Order placed"),
          ("data_leakage_warning", JSValue.str "leak")]))).1.chatMessages
      = [] ++ [⟨"user", JSValue.str " Buy 10 AAPL ", none, none⟩,
          ⟨"assistant", JSValue.str "Order placed", debug, some (JSValue.str "leak")⟩]) :=
  ⟨by decide,
    (sendMessage_success_appends_exchange (JSValue.str "http://localhost:8001")
      ⟨JSValue.arr [], JSValue.arr [], [], " Buy 10 AAPL ", false,
        some ⟨"u-7", some "trader", "tok-1"⟩⟩
      ⟨[], []⟩ ⟨"u-7", some "trader", "tok-1"⟩
      (JSValue.obj [("response", JSValue.str "Order placed"),
        ("data_leakage_warning", JSValue.str "leak")])
      (by decide) rfl rfl rfl).1⟩

/-- C4 as stated fails: the POST resolves (status 200) with the JSON body `null`; reading
`response.data.response` throws, the `catch` block runs, and the assistant message is the
error bubble, not the response text (which would read as `undefined`). -/
theorem sendMessage_null_body_counterexample :
    (Dashboard.sendMessageDone (JSValue.str "http://localhost:8001")
        ⟨JSValue.arr [], JSValue.arr [], [], "Show my portfolio", false,
          some ⟨"u-7", some "trader", "tok-1"⟩⟩
        ⟨[], []⟩ (HttpOutcome.resolved JSValue.null)).1.chatMessages
      = [⟨"user", JSValue.str "Show my portfolio", none, none⟩,
          ⟨"assistant", JSValue.str "Error: Failed to connect to AI service", none, none⟩]
    ∧ ¬ (∃ debug : Option JSValue,
      (Dashboard.sendMessageDone (JSValue.str "http://localhost:8001")
        ⟨JSValue.arr [], JSValue.arr [], [], "Show my portfolio", false,
          some ⟨"u-7", some "trader", "tok-1"⟩⟩
        ⟨[], []⟩ (HttpOutcome.resolved JSValue.null)).1.chatMessages
      = [] ++ [⟨"user", JSValue.str "Show my portfolio", none, none⟩,
          ⟨"assistant", JSValue.null.optProp "response", debug,
            some (JSValue.null.optProp "data_leakage_warning")⟩]) := by
  have hrun : (Dashboard.sendMessageDone (JSValue.str "http://localhost:8001")
        ⟨JSValue.arr [], JSValue.arr [], [], "Show my portfolio", false,
          some ⟨"u-7", some "trader", "tok-1"⟩⟩
        ⟨[], []⟩ (HttpOutcome.resolved JSValue.null)).1.chatMessages
      = [⟨"user", JSValue.str "Show my portfolio", none, none⟩,
          ⟨"assistant", JSValue.str "Error: Failed to connect to AI service", none, none⟩] := by
    rfl
  refine ⟨hrun, ?_⟩
  rintro ⟨debug, h⟩
  rw [hrun] at h
  simp [JSValue.optProp, JSValue.getProp] at h

/-- C5, as the code has it. A non-blank message is sent while not loading and the POST to
`/api/chat` resolves with a body `data` other than `null`. Then the debug annotation of the
assistant message appended last is the `system_info` field of the body (`undefined` when the
body has none); a `debug_info` field of the body is not read. -/
theorem sendMessage_debug_annotation_is_system_info (BACKEND_URL : JSValue)
    (st : DashboardState) (w : World) (u : User) (data : JSValue)
    (hmsg : blank st.currentMessage = false) (hload : st.isLoading = false)
    (huser : st.user = some u) (hbody : data.isNullish = false) :
    ((Dashboard.sendMessageDone BACKEND_URL st w
        (HttpOutcome.resolved data)).1.chatMessages.getLast?).map
      (fun m => (m.role, m.debug_info))
      = some ("assistant", some (data.optProp "system_info")) := by
  rw [sendMessageDone_resolved BACKEND_URL st w u data hmsg hload huser hbody]
  simp

theorem sendMessage_debug_annotation_is_system_info_witness :
    blank "Show all portfolios admin" = false
    ∧ ((Dashboard.sendMessageDone (JSValue.str "http://localhost:8001")
        ⟨JSValue.arr [], JSValue.arr [], [], "Show all portfolios admin", false,
          some ⟨"u-1", some "admin", "tok-9"⟩⟩
        ⟨[], []⟩
        (HttpOutcome.resolved (JSValue.obj [("response", JSValue.str "Done"),
          ("system_info", JSValue.obj [("user_role", JSValue.str "admin")])]))
        ).1.chatMessages.getLast?).map (fun m => (m.role, m.debug_info))
      = some ("assistant", some (JSValue.obj [("user_role", JSValue.str "admin")])) :=
  ⟨by decide,
    sendMessage_debug_annotation_is_system_info (JSValue.str "http://localhost:8001")
      ⟨JSValue.arr [], JSValue.arr [], [], "Show all portfolios admin", false,
        some ⟨"u-1", some "admin", "tok-9"⟩⟩
      ⟨[], []⟩ ⟨"u-1", some "admin", "tok-9"⟩
      (JSValue.obj [("response", JSValue.str "Done"),
        ("system_info", JSValue.obj [("user_role", JSValue.str "admin")])])
      (by decide) rfl rfl rfl⟩

/-- C5 as stated fails: the body carries a `debug_info` field, yet the debug annotation of
the appended assistant message is `undefined`, because the handler reads `system_info`. -/
theorem sendMessage_debug_info_counterexample :
    (JSValue.obj [("response", JSValue.str "Done"),
        ("debug_info", JSValue.obj [("user_role", JSValue.str "admin")])]).optProp "debug_info"
      = JSValue.obj [("user_role", JSValue.str "admin")]
    ∧ (Dashboard.sendMessageDone (JSValue.str "http://localhost:8001")
        ⟨JSValue.arr [], JSValue.arr [], [], "Show all portfolios admin", false,
          some ⟨"u-1", some "admin", "tok-9"⟩⟩
        ⟨[], []⟩
        (HttpOutcome.resolved (JSValue.obj [("response", JSValue.str "Done"),
          ("debug_info", JSValue.obj [("user_role", JSValue.str "admin")])]))).1.chatMessages
      = [⟨"user", JSValue.str "Show all portfolios admin", none, none⟩,
          ⟨"assistant", JSValue.str "Done", some JSValue.undefined, some JSValue.undefined⟩]
    ∧ JSValue.undefined ≠ JSValue.obj [("user_role", JSValue.str "admin")] :=
  ⟨rfl, rfl, by simp⟩

/-- C6. A non-blank message is sent while not loading by the logged-in user `u`. However the
POST settles, `sendMessage` issues exactly one request: a POST to `API/chat` whose body has
`message` equal to the typed text (while the input field itself has been cleared),
`user_id` equal to `u.id` and `session_token` equal to `u.token`. -/
theorem sendMessage_posts_once (BACKEND_URL : JSValue) (st : DashboardState) (w : World)
    (u : User) (chat : HttpOutcome) (hmsg : blank st.currentMessage = false)
    (hload : st.isLoading = false) (huser : st.user = some u) :
    httpRequests (Dashboard.sendMessageDone BACKEND_URL st w chat).2.trace
        = httpRequests w.trace ++
          [⟨"POST", API BACKEND_URL ++ "/chat", [],
            JSValue.obj [("message", JSValue.str st.currentMessage),
              ("user_id", JSValue.str u.id), ("session_token", JSValue.str u.token)]⟩]
    ∧ (Dashboard.sendMessageDone BACKEND_URL st w chat).1.currentMessage = "" := by
  cases chat with
  | rejected e =>
    cases htext : (Dashboard.errorDetail e).toStr with
    | some text =>
      rw [sendMessageDone_caught BACKEND_URL st w u _ e text hmsg hload huser (Or.inl rfl)
        htext]
      simp [httpRequests_append, httpRequests]
    | none =>
      rw [sendMessageDone_catch_throws BACKEND_URL st w u e hmsg hload huser htext]
      simp [httpRequests_append, httpRequests]
  | resolved data =>
    cases hb : data.isNullish with
    | false =>
      rw [sendMessageDone_resolved BACKEND_URL st w u data hmsg hload huser hb]
      simp [httpRequests_append, httpRequests]
    | true =>
      rw [sendMessageDone_caught BACKEND_URL st w u _ typeError
        "Failed to connect to AI service" hmsg hload huser
        (Or.inr ⟨data, rfl, hb, rfl⟩) errorDetail_typeError]
      simp [httpRequests_append, httpRequests]

theorem sendMessage_posts_once_witness :
    blank "Buy 10 AAPL" = false
    ∧ httpRequests (Dashboard.sendMessageDone (JSValue.str "http://localhost:8001")
        ⟨JSValue.arr [], JSValue.arr [], [], "Buy 10 AAPL", false,
          some ⟨"u-7", some "trader", "tok-1"⟩⟩
        ⟨[], []⟩ (HttpOutcome.rejected ⟨JSValue.undefined⟩)).2.trace
      = httpRequests [] ++
        [⟨"POST", API (JSValue.str "http://localhost:8001") ++ "/chat", [],
          JSValue.obj [("message", JSValue.str "Buy 10 AAPL"),
            ("user_id", JSValue.str "u-7"), ("session_token", JSValue.str "tok-1")]⟩] :=
  ⟨by decide,
    (sendMessage_posts_once (JSValue.str "http://localhost:8001")
      ⟨JSValue.arr [], JSValue.arr [], [], "Buy 10 AAPL", false,
        some ⟨"u-7", some "trader", "tok-1"⟩⟩
      ⟨[], []⟩ ⟨"u-7", some "trader", "tok-1"⟩ (HttpOutcome.rejected ⟨JSValue.undefined⟩)
      (by decide) rfl rfl).1⟩

/-- C9. When the typed message is empty or white space only, or a chat request is in flight
(`isLoading` is true), `sendMessage` does nothing: the chat history, the input field and the
loading flag are unchanged (the whole state is), and no HTTP request or other action is
performed. -/
theorem sendMessage_noop_when_blank_or_loading (BACKEND_URL : JSValue) (st : DashboardState)
    (w : World) (chat : HttpOutcome)
    (h : blank st.currentMessage = true ∨ st.isLoading = true) :
    (Dashboard.sendMessageDone BACKEND_URL st w chat).1.chatMessages = st.chatMessages
    ∧ (Dashboard.sendMessageDone BACKEND_URL st w chat).1.currentMessage = st.currentMessage
    ∧ (Dashboard.sendMessageDone BACKEND_URL st w chat).1.isLoading = st.isLoading
    ∧ httpRequests (Dashboard.sendMessageDone BACKEND_URL st w chat).2.trace
        = httpRequests w.trace
    ∧ Dashboard.sendMessageDone BACKEND_URL st w chat = (st, w) := by
  rw [sendMessageDone_guarded BACKEND_URL st w chat h]
  exact ⟨rfl, rfl, rfl, rfl, rfl⟩

theorem sendMessage_noop_when_blank_or_loading_witness :
    (blank " \t\n" = true ∨ false = true)
    ∧ (Dashboard.sendMessageDone (JSValue.str "http://localhost:8001")
        ⟨JSValue.arr [], JSValue.arr [], [], " \t\n", false,
          some ⟨"u-7", some "trader", "tok-1"⟩⟩
        ⟨[], []⟩ (HttpOutcome.resolved (JSValue.obj []))).1.chatMessages = [] :=
  ⟨Or.inl (by decide),
    (sendMessage_noop_when_blank_or_loading (JSValue.str "http://localhost:8001")
      ⟨JSValue.arr [], JSValue.arr [], [], " \t\n", false,
        some ⟨"u-7", some "trader", "tok-1"⟩⟩
      ⟨[], []⟩ (HttpOutcome.resolved (JSValue.obj [])) (Or.inl (by decide))).1⟩

/-! ## Dashboard: loading the data -/

/-- Both GET requests resolve and the portfolio body can be read. -/
theorem loadDashboardDataDone_loaded (BACKEND_URL : JSValue) (userId token : String)
    (st : DashboardState) (w : World) (stocksData portfolioData : JSValue)
    (hbody : portfolioData.isNullish = false) :
    Dashboard.loadDashboardDataDone BACKEND_URL userId token st w
        (HttpOutcome.resolved stocksData) (HttpOutcome.resolved portfolioData)
      = ({ st with
            stocks := stocksData,
            portfolio := (portfolioData.optProp "portfolios").or (JSValue.arr []) },
          { w with
            trace := w.trace ++
              [Effect.httpRequest ⟨"GET", API BACKEND_URL ++ "/stocks", [], JSValue.undefined⟩,
                Effect.httpRequest ⟨"GET", API BACKEND_URL ++ "/portfolio/" ++ userId,
                  [("Authorization", "Bearer " ++ token)], JSValue.undefined⟩] }) := by
  simp [Dashboard.loadDashboardDataDone, Dashboard.loadDashboardData, Eff.exec, bind, Eff.bind,
    tryCatch, axiosGet, axiosRequest, Dashboard.setStocks, Dashboard.setPortfolio, prop,
    JSValue.getProp_of_not_nullish portfolioData _ hbody]

/-- Both GET requests resolve but the portfolio body is `null`: reading `portfolios` throws
and the portfolio state is not written. -/
theorem loadDashboardDataDone_null_body (BACKEND_URL : JSValue) (userId token : String)
    (st : DashboardState) (w : World) (stocksData portfolioData : JSValue)
    (hbody : portfolioData.isNullish = true) :
    Dashboard.loadDashboardDataDone BACKEND_URL userId token st w
        (HttpOutcome.resolved stocksData) (HttpOutcome.resolved portfolioData)
      = ({ st with stocks := stocksData },
          { w with
            trace := w.trace ++
              [Effect.httpRequest ⟨"GET", API BACKEND_URL ++ "/stocks", [], JSValue.undefined⟩,
                Effect.httpRequest ⟨"GET", API BACKEND_URL ++ "/portfolio/" ++ userId,
                  [("Authorization", "Bearer " ++ token)], JSValue.undefined⟩,
                Effect.consoleError "Error loading dashboard data:"] }) := by
  cases portfolioData <;> simp [JSValue.isNullish] at hbody <;>
  simp [Dashboard.loadDashboardDataDone, Dashboard.loadDashboardData, Eff.exec, bind, Eff.bind,
    tryCatch, axiosGet, axiosRequest, Dashboard.setStocks, Dashboard.setPortfolio, prop,
    JSValue.getProp, consoleError]

/-- C7. For every user id and token, `loadDashboardData` first issues GET `API/stocks`
with no headers (so no `Authorization` header); if that request resolves it next issues GET
`API/portfolio/<userId>` with the single header `Authorization: Bearer <token>`; if the
stocks request rejects, the stocks request is the only one issued. -/
theorem loadDashboardData_request_sequence (BACKEND_URL : JSValue) (userId token : String)
    (st : DashboardState) (w : World) (stocks portfolio : HttpOutcome) :
    httpRequests
        (Dashboard.loadDashboardDataDone BACKEND_URL userId token st w stocks portfolio).2.trace
      = httpRequests w.trace ++
          (match stocks with
            | HttpOutcome.resolved _ =>
              [⟨"GET", API BACKEND_URL ++ "/stocks", [], JSValue.undefined⟩,
                ⟨"GET", API BACKEND_URL ++ "/portfolio/" ++ userId,
                  [("Authorization", "Bearer " ++ token)], JSValue.undefined⟩]
            | HttpOutcome.rejected _ =>
              [⟨"GET", API BACKEND_URL ++ "/stocks", [], JSValue.undefined⟩]) := by
  cases stocks with
  | rejected e =>
    simp [Dashboard.loadDashboardDataDone, Dashboard.loadDashboardData, Eff.exec, bind,
      Eff.bind, tryCatch, axiosGet, axiosRequest, consoleError, httpRequests_append,
      httpRequests]
  | resolved stocksData =>
    cases portfolio with
    | rejected e =>
      simp [Dashboard.loadDashboardDataDone, Dashboard.loadDashboardData, Eff.exec, bind,
        Eff.bind, tryCatch, axiosGet, axiosRequest, consoleError, Dashboard.setStocks,
        httpRequests_append, httpRequests]
    | resolved portfolioData =>
      cases hb : portfolioData.isNullish with
      | false =>
        rw [loadDashboardDataDone_loaded BACKEND_URL userId token st w _ _ hb]
        simp [httpRequests_append, httpRequests]
      | true =>
        rw [loadDashboardDataDone_null_body BACKEND_URL userId token st w _ _ hb]
        simp [httpRequests_append, httpRequests]

/-- C8, as the code has it. After `loadDashboardData` completes with both requests resolved
and a portfolio body other than `null`, the stocks state is the body of the stocks response
and the portfolio state is the `portfolios` field of the portfolio body, or the empty list
when that field is missing (or otherwise falsy); a list is always taken as it is. -/
theorem loadDashboardData_mirrors_responses (BACKEND_URL : JSValue) (userId token : String)
    (st : DashboardState) (w : World) (stocksData portfolioData : JSValue)
    (hbody : portfolioData.isNullish = false) :
    (Dashboard.loadDashboardDataDone BACKEND_URL userId token st w
        (HttpOutcome.resolved stocksData) (HttpOutcome.resolved portfolioData)).1.stocks
      = stocksData
    ∧ (Dashboard.loadDashboardDataDone BACKEND_URL userId token st w
        (HttpOutcome.resolved stocksData) (HttpOutcome.resolved portfolioData)).1.portfolio
      = (if (portfolioData.optProp "portfolios").truthy = true
          then portfolioData.optProp "portfolios" else JSValue.arr [])
    ∧ (∀ holdings : List JSValue, portfolioData.optProp "portfolios" = JSValue.arr holdings →
        (Dashboard.loadDashboardDataDone BACKEND_URL userId token st w
          (HttpOutcome.resolved stocksData) (HttpOutcome.resolved portfolioData)).1.portfolio
        = JSValue.arr holdings)
    ∧ (portfolioData.optProp "portfolios" = JSValue.undefined →
        (Dashboard.loadDashboardDataDone BACKEND_URL userId token st w
          (HttpOutcome.resolved stocksData) (HttpOutcome.resolved portfolioData)).1.portfolio
        = JSValue.arr []) := by
  rw [loadDashboardDataDone_loaded BACKEND_URL userId token st w _ _ hbody]
  refine ⟨rfl, ?_, ?_, ?_⟩
  · simp [JSValue.or]
  · intro holdings h
    simp [h, JSValue.or, JSValue.truthy]
  · intro h
    simp [h, JSValue.or, JSValue.truthy]

theorem loadDashboardData_mirrors_responses_witness :
    (JSValue.obj [("portfolios",
        JSValue.arr [JSValue.obj [("stock_symbol", JSValue.str "AAPL")]])]).isNullish = false
    ∧ (Dashboard.loadDashboardDataDone (JSValue.str "http://localhost:8001") "u-7" "tok-1"
        Dashboard.initialState ⟨[], []⟩
        (HttpOutcome.resolved (JSValue.arr [JSValue.obj [("symbol", JSValue.str "NVDA")]]))
        (HttpOutcome.resolved (JSValue.obj [("portfolios",
          JSValue.arr [JSValue.obj [("stock_symbol", JSValue.str "AAPL")]])]))).1.stocks
      = JSValue.arr [JSValue.obj [("symbol", JSValue.str "NVDA")]] :=
  ⟨rfl,
    (loadDashboardData_mirrors_responses (JSValue.str "http://localhost:8001") "u-7" "tok-1"
      Dashboard.initialState ⟨[], []⟩
      (JSValue.arr [JSValue.obj [("symbol", JSValue.str "NVDA")]])
      (JSValue.obj [("portfolios",
        JSValue.arr [JSValue.obj [("stock_symbol", JSValue.str "AAPL")]])]) rfl).1⟩

/-- C8 as stated fails: the data is loaded twice, starting from the initial state. The first
portfolio response lists one holding; the second call has both requests resolve, the
portfolio one with the JSON body `null`. The body has no `portfolios` field, yet the
portfolio state is not the empty list: it still holds the holding of the first response. -/
theorem loadDashboardData_null_body_counterexample :
    (Dashboard.loadDashboardDataDone (JSValue.str "http://localhost:8001") "u-7" "tok-1"
        (Dashboard.loadDashboardDataDone (JSValue.str "http://localhost:8001") "u-7" "tok-1"
          Dashboard.initialState ⟨[], []⟩
          (HttpOutcome.resolved (JSValue.arr []))
          (HttpOutcome.resolved (JSValue.obj [("portfolios",
            JSValue.arr [JSValue.obj [("stock_symbol", JSValue.str "AAPL")]])]))).1
        (Dashboard.loadDashboardDataDone (JSValue.str "http://localhost:8001") "u-7" "tok-1"
          Dashboard.initialState ⟨[], []⟩
          (HttpOutcome.resolved (JSValue.arr []))
          (HttpOutcome.resolved (JSValue.obj [("portfolios",
            JSValue.arr [JSValue.obj [("stock_symbol", JSValue.str "AAPL")]])]))).2
        (HttpOutcome.resolved (JSValue.arr []))
        (HttpOutcome.resolved JSValue.null)).1.portfolio
      = JSValue.arr [JSValue.obj [("stock_symbol", JSValue.str "AAPL")]]
    ∧ JSValue.null.optProp "portfolios" = JSValue.undefined
    ∧ JSValue.arr [JSValue.obj [("stock_symbol", JSValue.str "AAPL")]] ≠ JSValue.arr [] :=
  ⟨rfl, rfl, by simp⟩

/-! ## Dashboard: the shape of the chat history -/

/-- One completed call started while not loading, whose `catch` block (if reached) completes,
either changes nothing in the history or appends a user message followed by an assistant
message. -/
theorem sendMessageDone_step (BACKEND_URL : JSValue) (st : DashboardState) (w : World)
    (chat : HttpOutcome) (hload : st.isLoading = false)
    (hok : Dashboard.catchCompletes chat = true) :
    (Dashboard.sendMessageDone BACKEND_URL st w chat).1.chatMessages = st.chatMessages
      ∨ ∃ a b : ChatMessage, a.role = "user" ∧ b.role = "assistant"
          ∧ (Dashboard.sendMessageDone BACKEND_URL st w chat).1.chatMessages
              = st.chatMessages ++ [a, b] := by
  cases hmsg : blank st.currentMessage with
  | true =>
    rw [sendMessageDone_guarded BACKEND_URL st w chat (Or.inl hmsg)]
    exact Or.inl rfl
  | false =>
    cases huser : st.user with
    | none =>
      rw [sendMessageDone_no_user BACKEND_URL st w chat hmsg hload huser]
      exact Or.inr ⟨_, _, rfl, rfl, rfl⟩
    | some u =>
      cases chat with
      | rejected e =>
        cases htext : (Dashboard.errorDetail e).toStr with
        | none => simp [Dashboard.catchCompletes, htext] at hok
        | some text =>
          rw [sendMessageDone_caught BACKEND_URL st w u _ e text hmsg hload huser
            (Or.inl rfl) htext]
          exact Or.inr ⟨_, _, rfl, rfl, rfl⟩
      | resolved data =>
        cases hb : data.isNullish with
        | false =>
          rw [sendMessageDone_resolved BACKEND_URL st w u data hmsg hload huser hb]
          exact Or.inr ⟨_, _, rfl, rfl, rfl⟩
        | true =>
          rw [sendMessageDone_caught BACKEND_URL st w u _ typeError
            "Failed to connect to AI service" hmsg hload huser
            (Or.inr ⟨data, rfl, hb, rfl⟩) errorDetail_typeError]
          exact Or.inr ⟨_, _, rfl, rfl, rfl⟩

/-- Whatever the outcome, a call never removes or rewrites history (the old history is a
leading part of the new one), and a call started while not loading ends not loading. -/
theorem sendMessageDone_extends (BACKEND_URL : JSValue) (st : DashboardState) (w : World)
    (chat : HttpOutcome) :
    (∃ t : List ChatMessage,
      (Dashboard.sendMessageDone BACKEND_URL st w chat).1.chatMessages = st.chatMessages ++ t)
    ∧ (st.isLoading = false →
        (Dashboard.sendMessageDone BACKEND_URL st w chat).1.isLoading = false) := by
  cases hload : st.isLoading with
  | true =>
    rw [sendMessageDone_guarded BACKEND_URL st w chat (Or.inr hload)]
    exact ⟨⟨[], by simp⟩, fun h => by simp [hload] at h⟩
  | false =>
    cases hmsg : blank st.currentMessage with
    | true =>
      rw [sendMessageDone_guarded BACKEND_URL st w chat (Or.inl hmsg)]
      exact ⟨⟨[], by simp⟩, fun _ => hload⟩
    | false =>
      cases huser : st.user with
      | none =>
        rw [sendMessageDone_no_user BACKEND_URL st w chat hmsg hload huser]
        exact ⟨⟨_, rfl⟩, fun _ => rfl⟩
      | some u =>
        cases chat with
        | rejected e =>
          cases htext : (Dashboard.errorDetail e).toStr with
          | none =>
            rw [sendMessageDone_catch_throws BACKEND_URL st w u e hmsg hload huser htext]
            exact ⟨⟨_, rfl⟩, fun _ => rfl⟩
          | some text =>
            rw [sendMessageDone_caught BACKEND_URL st w u _ e text hmsg hload huser
              (Or.inl rfl) htext]
            exact ⟨⟨_, rfl⟩, fun _ => rfl⟩
        | resolved data =>
          cases hb : data.isNullish with
          | false =>
            rw [sendMessageDone_resolved BACKEND_URL st w u data hmsg hload huser hb]
            exact ⟨⟨_, rfl⟩, fun _ => rfl⟩
          | true =>
            rw [sendMessageDone_caught BACKEND_URL st w u _ typeError
              "Failed to connect to AI service" hmsg hload huser
              (Or.inr ⟨data, rfl, hb, rfl⟩) errorDetail_typeError]
            exact ⟨⟨_, rfl⟩, fun _ => rfl⟩

/-- Appending a user message and an assistant message keeps an even, alternating history. -/
theorem alternating_append_pair (l : List ChatMessage) (a b : ChatMessage)
    (heven : Even l.length)
    (halt : ∀ (i : Nat) (m : ChatMessage), l[i]? = some m →
      m.role = if i % 2 = 0 then "user" else "assistant")
    (ha : a.role = "user") (hb : b.role = "assistant") :
    Even (l ++ [a, b]).length
    ∧ ∀ (i : Nat) (m : ChatMessage), (l ++ [a, b])[i]? = some m →
        m.role = if i % 2 = 0 then "user" else "assistant" := by
  constructor
  · rw [List.length_append]
    exact heven.add ⟨1, rfl⟩
  · intro i m hm
    rcases Nat.lt_or_ge i l.length with hlt | hge
    · rw [List.getElem?_append_left hlt] at hm
      exact halt i m hm
    · rw [List.getElem?_append_right hge] at hm
      obtain ⟨k, hk⟩ := heven
      rcases Nat.lt_or_ge (i - l.length) 1 with h0 | h1
      · have hi : i = l.length := by omega
        have h00 : i - l.length = 0 := by omega
        rw [h00] at hm
        simp at hm
        subst hm
        have hmod : i % 2 = 0 := by omega
        simp [hmod, ha]
      · rcases Nat.lt_or_ge (i - l.length) 2 with h2 | h3
        · have h11 : i - l.length = 1 := by omega
          rw [h11] at hm
          simp at hm
          subst hm
          have hmod : i % 2 = 1 := by omega
          simp [hmod, hb]
        · have hnone : ([a, b] : List ChatMessage)[i - l.length]? = none := by
            apply List.getElem?_eq_none
            simpa using h3
          rw [hnone] at hm
          exact Option.noConfusion hm

/-- The loading flag is false after any sequence of completed calls begun while not
loading. -/
theorem sendAll_idle (BACKEND_URL : JSValue) (calls : List (String × HttpOutcome)) :
    ∀ s : DashboardState × World, s.1.isLoading = false →
      (Dashboard.sendAll BACKEND_URL calls s).1.isLoading = false := by
  induction calls with
  | nil =>
    intro s h
    exact h
  | cons c rest ih =>
    intro s h
    obtain ⟨typed, chat⟩ := c
    simp only [Dashboard.sendAll]
    exact ih _ ((sendMessageDone_extends BACKEND_URL { s.1 with currentMessage := typed } s.2
      chat).2 h)

/-- The invariant of the chat state is kept by any sequence of completed calls in which
every `catch` block that runs completes. -/
theorem sendAll_invariant (BACKEND_URL : JSValue) (calls : List (String × HttpOutcome))
    (hcalls : ∀ c ∈ calls, Dashboard.catchCompletes c.2 = true) :
    ∀ s : DashboardState × World,
      Even s.1.chatMessages.length →
      (∀ (i : Nat) (m : ChatMessage), s.1.chatMessages[i]? = some m →
        m.role = if i % 2 = 0 then "user" else "assistant") →
      s.1.isLoading = false →
      Even (Dashboard.sendAll BACKEND_URL calls s).1.chatMessages.length
      ∧ (∀ (i : Nat) (m : ChatMessage),
          (Dashboard.sendAll BACKEND_URL calls s).1.chatMessages[i]? = some m →
          m.role = if i % 2 = 0 then "user" else "assistant") := by
  induction calls with
  | nil =>
    intro s h1 h2 _
    exact ⟨h1, h2⟩
  | cons c rest ih =>
    intro s h1 h2 h3
    obtain ⟨typed, chat⟩ := c
    simp only [Dashboard.sendAll]
    have hok : Dashboard.catchCompletes chat = true := hcalls (typed, chat) (by simp)
    have hrest : ∀ c ∈ rest, Dashboard.catchCompletes c.2 = true :=
      fun c hc => hcalls c (List.mem_cons_of_mem _ hc)
    have hhist := sendMessageDone_step BACKEND_URL { s.1 with currentMessage := typed } s.2
      chat h3 hok
    have hl := (sendMessageDone_extends BACKEND_URL { s.1 with currentMessage := typed } s.2
      chat).2 h3
    apply ih hrest
    · rcases hhist with h | ⟨a, b, ha, hb, h⟩
      · rw [h]; exact h1
      · rw [h]; exact (alternating_append_pair _ a b h1 h2 ha hb).1
    · rcases hhist with h | ⟨a, b, ha, hb, h⟩
      · rw [h]; exact h2
      · rw [h]; exact (alternating_append_pair _ a b h1 h2 ha hb).2
    · exact hl

/-- C10, as the code has it. Start from an empty chat history with the loading flag false.
After any sequence of completed `sendMessage` calls (whatever was typed before each call
and however its POST settled: a no-op, a success or a failure) in which no rejected POST
carries a detail whose conversion to a string throws, the history has even length and its
roles alternate user, assistant, user, assistant, .... For every sequence of calls, with no
such condition, the loading flag is false at the end; every single call keeps the previous
history as a leading part of the new one, and a call started while not loading leaves the
loading flag false. -/
theorem sendAll_history_alternates (BACKEND_URL : JSValue)
    (calls : List (String × HttpOutcome)) (st0 : DashboardState) (w0 : World)
    (hempty : st0.chatMessages = []) (hidle : st0.isLoading = false)
    (hcalls : ∀ c ∈ calls, Dashboard.catchCompletes c.2 = true) :
    Even (Dashboard.sendAll BACKEND_URL calls (st0, w0)).1.chatMessages.length
    ∧ (∀ (i : Nat) (m : ChatMessage),
        (Dashboard.sendAll BACKEND_URL calls (st0, w0)).1.chatMessages[i]? = some m →
        m.role = if i % 2 = 0 then "user" else "assistant")
    ∧ (∀ anyCalls : List (String × HttpOutcome),
        (Dashboard.sendAll BACKEND_URL anyCalls (st0, w0)).1.isLoading = false)
    ∧ (∀ (st : DashboardState) (w : World) (typed : String) (chat : HttpOutcome),
        ∃ t : List ChatMessage,
          (Dashboard.sendMessageDone BACKEND_URL { st with currentMessage := typed } w
            chat).1.chatMessages = st.chatMessages ++ t)
    ∧ (∀ (st : DashboardState) (w : World) (typed : String) (chat : HttpOutcome),
        st.isLoading = false →
          (Dashboard.sendMessageDone BACKEND_URL { st with currentMessage := typed } w
            chat).1.isLoading = false) := by
  have hinv := sendAll_invariant BACKEND_URL calls hcalls (st0, w0)
    (by simp [hempty]) (by simp [hempty]) hidle
  refine ⟨hinv.1, hinv.2, ?_, ?_, ?_⟩
  · intro anyCalls
    exact sendAll_idle BACKEND_URL anyCalls (st0, w0) hidle
  · intro st w typed chat
    exact (sendMessageDone_extends BACKEND_URL { st with currentMessage := typed } w chat).1
  · intro st w typed chat hl
    exact (sendMessageDone_extends BACKEND_URL { st with currentMessage := typed } w chat).2 hl

theorem sendAll_history_alternates_witness :
    (∀ c ∈ [("Show my portfolio", HttpOutcome.resolved
            (JSValue.obj [("response", JSValue.str "You hold AAPL")])),
          ("   ", HttpOutcome.resolved (JSValue.obj [])),
          ("Buy 10 AAPL", HttpOutcome.rejected ⟨JSValue.obj [("data",
            JSValue.obj [("detail", JSValue.str "Invalid session")])]⟩)],
        Dashboard.catchCompletes c.2 = true)
    ∧ ((Dashboard.sendAll (JSValue.str "http://localhost:8001")
        [("Show my portfolio", HttpOutcome.resolved
            (JSValue.obj [("response", JSValue.str "You hold AAPL")])),
          ("   ", HttpOutcome.resolved (JSValue.obj [])),
          ("Buy 10 AAPL", HttpOutcome.rejected ⟨JSValue.obj [("data",
            JSValue.obj [("detail", JSValue.str "Invalid session")])]⟩)]
        (⟨JSValue.arr [], JSValue.arr [], [], "", false,
            some ⟨"u-7", some "trader", "tok-1"⟩⟩, ⟨[], []⟩)).1.chatMessages.map
          (fun m => (m.role, m.content))
      = [("user", JSValue.str "Show my portfolio"), ("assistant", JSValue.str "You hold AAPL"),
          ("user", JSValue.str "Buy 10 AAPL"),
          ("assistant", JSValue.str "Error: Invalid session")])
    ∧ httpRequests (Dashboard.sendAll (JSValue.str "http://localhost:8001")
        [("Show my portfolio", HttpOutcome.resolved
            (JSValue.obj [("response", JSValue.str "You hold AAPL")])),
          ("   ", HttpOutcome.resolved (JSValue.obj [])),
          ("Buy 10 AAPL", HttpOutcome.rejected ⟨JSValue.obj [("data",
            JSValue.obj [("detail", JSValue.str "Invalid session")])]⟩)]
        (⟨JSValue.arr [], JSValue.arr [], [], "", false,
            some ⟨"u-7", some "trader", "tok-1"⟩⟩, ⟨[], []⟩)).2.trace
      = [⟨"POST", "http://localhost:8001/api/chat", [],
            JSValue.obj [("message", JSValue.str "Show my portfolio"),
              ("user_id", JSValue.str "u-7"), ("session_token", JSValue.str "tok-1")]⟩,
          ⟨"POST", "http://localhost:8001/api/chat", [],
            JSValue.obj [("message", JSValue.str "Buy 10 AAPL"),
              ("user_id", JSValue.str "u-7"), ("session_token", JSValue.str "tok-1")]⟩]
    ∧ Even (Dashboard.sendAll (JSValue.str "http://localhost:8001")
        [("Show my portfolio", HttpOutcome.resolved
            (JSValue.obj [("response", JSValue.str "You hold AAPL")])),
          ("   ", HttpOutcome.resolved (JSValue.obj [])),
          ("Buy 10 AAPL", HttpOutcome.rejected ⟨JSValue.obj [("data",
            JSValue.obj [("detail", JSValue.str "Invalid session")])]⟩)]
        (⟨JSValue.arr [], JSValue.arr [], [], "", false,
            some ⟨"u-7", some "trader", "tok-1"⟩⟩, ⟨[], []⟩)).1.chatMessages.length :=
  ⟨by decide, rfl, rfl,
    (sendAll_history_alternates (JSValue.str "http://localhost:8001")
      [("Show my portfolio", HttpOutcome.resolved
          (JSValue.obj [("response", JSValue.str "You hold AAPL")])),
        ("   ", HttpOutcome.resolved (JSValue.obj [])),
        ("Buy 10 AAPL", HttpOutcome.rejected ⟨JSValue.obj [("data",
          JSValue.obj [("detail", JSValue.str "Invalid session")])]⟩)]
      ⟨JSValue.arr [], JSValue.arr [], [], "", false, some ⟨"u-7", some "trader", "tok-1"⟩⟩
      ⟨[], []⟩ rfl rfl (by decide)).1⟩

/-- C10 as stated fails. A logged-in user sends `Show my portfolio` and the POST rejects with
the detail `{"toString": 1}`: the `catch` block throws while building the bubble text, so
only the user message is appended and the history has length 1. The next message,
`Buy 10 AAPL`, succeeds: the history is then user, user, assistant, of odd length and not
alternating. The loading flag is false after both calls. -/
theorem sendAll_unrenderable_detail_counterexample :
    (Dashboard.sendAll (JSValue.str "http://localhost:8001")
        [("Show my portfolio", HttpOutcome.rejected ⟨JSValue.obj [("data",
            JSValue.obj [("detail",
              JSValue.obj [("toString", JSValue.num ⟨true, "1"⟩)])])]⟩)]
        (⟨JSValue.arr [], JSValue.arr [], [], "", false,
            some ⟨"u-7", some "trader", "tok-1"⟩⟩, ⟨[], []⟩)).1.chatMessages
      = [⟨"user", JSValue.str "Show my portfolio", none, none⟩]
    ∧ (Dashboard.sendAll (JSValue.str "http://localhost:8001")
        [("Show my portfolio", HttpOutcome.rejected ⟨JSValue.obj [("data",
            JSValue.obj [("detail",
              JSValue.obj [("toString", JSValue.num ⟨true, "1"⟩)])])]⟩),
          ("Buy 10 AAPL", HttpOutcome.resolved
            (JSValue.obj [("response", JSValue.str "Order placed")]))]
        (⟨JSValue.arr [], JSValue.arr [], [], "", false,
            some ⟨"u-7", some "trader", "tok-1"⟩⟩, ⟨[], []⟩)).1.chatMessages.map
          (fun m => m.role)
      = ["user", "user", "assistant"]
    ∧ (Dashboard.sendAll (JSValue.str "http://localhost:8001")
        [("Show my portfolio", HttpOutcome.rejected ⟨JSValue.obj [("data",
            JSValue.obj [("detail",
              JSValue.obj [("toString", JSValue.num ⟨true, "1"⟩)])])]⟩),
          ("Buy 10 AAPL", HttpOutcome.resolved
            (JSValue.obj [("response", JSValue.str "Order placed")]))]
        (⟨JSValue.arr [], JSValue.arr [], [], "", false,
            some ⟨"u-7", some "trader", "tok-1"⟩⟩, ⟨[], []⟩)).1.isLoading = false
    ∧ ¬ Even (Dashboard.sendAll (JSValue.str "http://localhost:8001")
        [("Show my portfolio", HttpOutcome.rejected ⟨JSValue.obj [("data",
            JSValue.obj [("detail",
              JSValue.obj [("toString", JSValue.num ⟨true, "1"⟩)])])]⟩),
          ("Buy 10 AAPL", HttpOutcome.resolved
            (JSValue.obj [("response", JSValue.str "Order placed")]))]
        (⟨JSValue.arr [], JSValue.arr [], [], "", false,
            some ⟨"u-7", some "trader", "tok-1"⟩⟩, ⟨[], []⟩)).1.chatMessages.length :=
  ⟨rfl, rfl, rfl, by decide⟩

/-! ## Dashboard: mount and logout -/

/-- What `loadDashboardData` never touches, and the request it always starts with. -/
theorem loadDashboardDataDone_frame (BACKEND_URL : JSValue) (userId token : String)
    (st : DashboardState) (w : World) (stocks portfolio : HttpOutcome) :
    (Dashboard.loadDashboardDataDone BACKEND_URL userId token st w stocks portfolio).1.user
        = st.user
    ∧ navigations
        (Dashboard.loadDashboardDataDone BACKEND_URL userId token st w stocks portfolio).2.trace
        = navigations w.trace
    ∧ ∃ rest : List Request,
        httpRequests
          (Dashboard.loadDashboardDataDone BACKEND_URL userId token st w stocks
            portfolio).2.trace
        = httpRequests w.trace
            ++ ⟨"GET", API BACKEND_URL ++ "/stocks", [], JSValue.undefined⟩ :: rest := by
  cases stocks with
  | rejected e =>
    simp [Dashboard.loadDashboardDataDone, Dashboard.loadDashboardData, Eff.exec, bind,
      Eff.bind, tryCatch, axiosGet, axiosRequest, consoleError, httpRequests_append,
      httpRequests, navigations_append, navigations]
  | resolved stocksData =>
    cases portfolio with
    | rejected e =>
      simp [Dashboard.loadDashboardDataDone, Dashboard.loadDashboardData, Eff.exec, bind,
        Eff.bind, tryCatch, axiosGet, axiosRequest, consoleError, Dashboard.setStocks,
        httpRequests_append, httpRequests, navigations_append, navigations]
    | resolved portfolioData =>
      cases hb : portfolioData.isNullish with
      | false =>
        rw [loadDashboardDataDone_loaded BACKEND_URL userId token st w _ _ hb]
        simp [httpRequests_append, httpRequests, navigations_append, navigations]
      | true =>
        rw [loadDashboardDataDone_null_body BACKEND_URL userId token st w _ _ hb]
        simp [httpRequests_append, httpRequests, navigations_append, navigations]

/-- The mount effect with the token or the user id missing or empty: only a redirect. -/
theorem mountDone_redirect (BACKEND_URL : JSValue) (st : DashboardState) (w : World)
    (stocks portfolio : HttpOutcome)
    (h : w.localStorage.getItem "token" = none ∨ w.localStorage.getItem "token" = some ""
      ∨ w.localStorage.getItem "user_id" = none
      ∨ w.localStorage.getItem "user_id" = some "") :
    Dashboard.mountDone BACKEND_URL st w stocks portfolio
      = (st, { w with trace := w.trace ++ [Effect.navigate "/"] }) := by
  cases ht : w.localStorage.getItem "token" with
  | none =>
    simp [Dashboard.mountDone, Dashboard.mountEffect, Eff.exec, bind, Eff.bind,
      localStorageGetItem, ht, navigate]
  | some t =>
    cases hu : w.localStorage.getItem "user_id" with
    | none =>
      simp [Dashboard.mountDone, Dashboard.mountEffect, Eff.exec, bind, Eff.bind,
        localStorageGetItem, ht, hu, navigate]
    | some u =>
      have hempty : t = "" ∨ u = "" := by
        rcases h with h | h | h | h
        · rw [ht] at h; exact Option.noConfusion h
        · rw [ht] at h; exact Or.inl (Option.some.inj h)
        · rw [hu] at h; exact Option.noConfusion h
        · rw [hu] at h; exact Or.inr (Option.some.inj h)
      have hg : ((t == "") || (u == "")) = true := by
        rcases hempty with h1 | h1 <;> simp [h1]
      simp [Dashboard.mountDone, Dashboard.mountEffect, Eff.exec, bind, Eff.bind,
        localStorageGetItem, ht, hu, hg, navigate]

/-- The mount effect with a non-empty token and user id: the user is set and the data is
loaded with that id and token. -/
theorem mountDone_session (BACKEND_URL : JSValue) (st : DashboardState) (w : World)
    (stocks portfolio : HttpOutcome) (t u : String)
    (ht : w.localStorage.getItem "token" = some t)
    (hu : w.localStorage.getItem "user_id" = some u) (htne : t ≠ "") (hune : u ≠ "") :
    Dashboard.mountDone BACKEND_URL st w stocks portfolio
      = Dashboard.loadDashboardDataDone BACKEND_URL u t
          { st with user := some ⟨u, w.localStorage.getItem "user_role", t⟩ } w
          stocks portfolio := by
  have hg : ((t == "") || (u == "")) = false := by simp [htne, hune]
  simp [Dashboard.mountDone, Dashboard.mountEffect, Dashboard.loadDashboardDataDone, Eff.exec,
    bind, Eff.bind, localStorageGetItem, ht, hu, hg, Dashboard.setUser]

/-- The logout handler empties local storage and navigates to the login page. -/
theorem handleLogoutDone_eq (st : DashboardState) (w : World) :
    Dashboard.handleLogoutDone st w
      = (st, { localStorage := [],
               trace := w.trace ++ [Effect.storageClear, Effect.navigate "/"] }) := by
  simp [Dashboard.handleLogoutDone, Dashboard.handleLogout, Eff.exec, bind, Eff.bind,
    localStorageClear, navigate]

/-- C11. When `Dashboard` mounts with local storage as in `w`: it navigates to `/`, leaves
the user state as it is (unset at mount) and issues no request if and only if the stored
`token` or the stored `user_id` is missing or empty, and then nothing else changes either.
Otherwise both are stored non-empty strings, there is no redirect, the user becomes
`{id: user_id, role: user_role, token}` as stored (`role` is `null` when `user_role` is not
stored) and `loadDashboardData` runs with that id and token, starting with GET `API/stocks`.
In particular `handleLogout` empties local storage and navigates to `/`, and a mount that
follows it only redirects. -/
theorem mount_redirects_iff_session_missing (BACKEND_URL : JSValue) (st : DashboardState)
    (w : World) (stocks portfolio : HttpOutcome) :
    ((navigations (Dashboard.mountDone BACKEND_URL st w stocks portfolio).2.trace
          = navigations w.trace ++ ["/"]
        ∧ (Dashboard.mountDone BACKEND_URL st w stocks portfolio).1.user = st.user
        ∧ httpRequests (Dashboard.mountDone BACKEND_URL st w stocks portfolio).2.trace
          = httpRequests w.trace)
      ↔ (w.localStorage.getItem "token" = none ∨ w.localStorage.getItem "token" = some ""
          ∨ w.localStorage.getItem "user_id" = none
          ∨ w.localStorage.getItem "user_id" = some ""))
    ∧ ((w.localStorage.getItem "token" = none ∨ w.localStorage.getItem "token" = some ""
          ∨ w.localStorage.getItem "user_id" = none
          ∨ w.localStorage.getItem "user_id" = some "") →
        Dashboard.mountDone BACKEND_URL st w stocks portfolio
          = (st, { w with trace := w.trace ++ [Effect.navigate "/"] }))
    ∧ (¬ (w.localStorage.getItem "token" = none ∨ w.localStorage.getItem "token" = some ""
          ∨ w.localStorage.getItem "user_id" = none
          ∨ w.localStorage.getItem "user_id" = some "") →
        ∃ t u : String,
          w.localStorage.getItem "token" = some t ∧ w.localStorage.getItem "user_id" = some u
          ∧ Dashboard.mountDone BACKEND_URL st w stocks portfolio
            = Dashboard.loadDashboardDataDone BACKEND_URL u t
                { st with user := some ⟨u, w.localStorage.getItem "user_role", t⟩ } w
                stocks portfolio
          ∧ (Dashboard.mountDone BACKEND_URL st w stocks portfolio).1.user
            = some ⟨u, w.localStorage.getItem "user_role", t⟩
          ∧ navigations (Dashboard.mountDone BACKEND_URL st w stocks portfolio).2.trace
            = navigations w.trace
          ∧ ∃ rest : List Request,
              httpRequests (Dashboard.mountDone BACKEND_URL st w stocks portfolio).2.trace
              = httpRequests w.trace
                  ++ ⟨"GET", API BACKEND_URL ++ "/stocks", [], JSValue.undefined⟩ :: rest)
    ∧ (Dashboard.handleLogoutDone st w).2.localStorage = []
    ∧ navigations (Dashboard.handleLogoutDone st w).2.trace = navigations w.trace ++ ["/"]
    ∧ (∀ next : DashboardState,
        Dashboard.mountDone BACKEND_URL next (Dashboard.handleLogoutDone st w).2 stocks portfolio
          = (next, { localStorage := [],
                     trace := w.trace ++
                       [Effect.storageClear, Effect.navigate "/", Effect.navigate "/"] })) := by
  have hsession : ¬ (w.localStorage.getItem "token" = none
        ∨ w.localStorage.getItem "token" = some ""
        ∨ w.localStorage.getItem "user_id" = none
        ∨ w.localStorage.getItem "user_id" = some "") →
      ∃ t u : String,
        w.localStorage.getItem "token" = some t ∧ w.localStorage.getItem "user_id" = some u
        ∧ t ≠ "" ∧ u ≠ "" := by
    intro hn
    cases ht : w.localStorage.getItem "token" with
    | none => exact absurd (Or.inl ht) hn
    | some t =>
      cases hu : w.localStorage.getItem "user_id" with
      | none => exact absurd (Or.inr (Or.inr (Or.inl hu))) hn
      | some u =>
        refine ⟨t, u, rfl, rfl, ?_, ?_⟩
        · intro h; subst h; exact hn (Or.inr (Or.inl ht))
        · intro h; subst h; exact hn (Or.inr (Or.inr (Or.inr hu)))
  refine ⟨⟨?_, ?_⟩, ?_, ?_, ?_, ?_, ?_⟩
  · rintro ⟨hnav, -, -⟩
    by_contra hn
    obtain ⟨t, u, ht, hu, htne, hune⟩ := hsession hn
    rw [mountDone_session BACKEND_URL st w stocks portfolio t u ht hu htne hune,
      (loadDashboardDataDone_frame BACKEND_URL u t _ w stocks portfolio).2.1] at hnav
    have hlen := congrArg List.length hnav
    simp at hlen
  · intro h
    rw [mountDone_redirect BACKEND_URL st w stocks portfolio h]
    simp [navigations_append, navigations, httpRequests_append, httpRequests]
  · intro h
    exact mountDone_redirect BACKEND_URL st w stocks portfolio h
  · intro hn
    obtain ⟨t, u, ht, hu, htne, hune⟩ := hsession hn
    refine ⟨t, u, ht, hu, ?_⟩
    rw [mountDone_session BACKEND_URL st w stocks portfolio t u ht hu htne hune]
    have hframe := loadDashboardDataDone_frame BACKEND_URL u t
      { st with user := some ⟨u, w.localStorage.getItem "user_role", t⟩ } w stocks portfolio
    exact ⟨rfl, hframe.1, hframe.2.1, hframe.2.2⟩
  · rw [handleLogoutDone_eq]
  · rw [handleLogoutDone_eq]
    simp [navigations_append, navigations]
  · intro next
    rw [handleLogoutDone_eq]
    rw [mountDone_redirect BACKEND_URL next
      { localStorage := [], trace := w.trace ++ [Effect.storageClear, Effect.navigate "/"] }
      stocks portfolio (Or.inl rfl)]
    simp

theorem mount_redirects_iff_session_missing_witness :
    ∃ t u : String,
      Storage.getItem [("token", "tok-1"), ("user_id", "u-7"), ("user_role", "trader")] "token"
        = some t
      ∧ Storage.getItem [("token", "tok-1"), ("user_id", "u-7"), ("user_role", "trader")]
          "user_id" = some u
      ∧ (Dashboard.mountDone (JSValue.str "http://localhost:8001") Dashboard.initialState
          ⟨[("token", "tok-1"), ("user_id", "u-7"), ("user_role", "trader")], []⟩
          (HttpOutcome.resolved (JSValue.arr []))
          (HttpOutcome.resolved (JSValue.obj []))).1.user
        = some ⟨u, some "trader", t⟩ := by
  obtain ⟨t, u, ht, hu, -, huser, -⟩ :=
    (mount_redirects_iff_session_missing (JSValue.str "http://localhost:8001")
      Dashboard.initialState
      ⟨[("token", "tok-1"), ("user_id", "u-7"), ("user_role", "trader")], []⟩
      (HttpOutcome.resolved (JSValue.arr []))
      (HttpOutcome.resolved (JSValue.obj []))).2.2.1 (by decide)
  exact ⟨t, u, ht, hu, huser⟩

end VulnAgent
